import Mathlib

/-!
# Verification of the Team-C fake-review XAI engine

Shallow embedding of the rule-based feature-scoring and explanation engine:

* `src/XAI_engine/feature_extractors.py` — pure linguistic feature extractors
  (the two NLTK-backed pieces, VADER sentiment and part-of-speech tagging,
  are modelled as oracle function parameters; everything else is embedded
  directly from the Python source);
* `src/XAI_engine/config.py` — the default threshold table;
* `src/XAI_engine/reason_generator.py` — `generate_explanation` and
  `format_explanation_text`;
* `src/XAI_engine/xai_engine.py` — the `FakeReviewXAI` engine class;
* `src/Integration/hybrid_analyzer.py` — agreement reconciliation
  (the DistilBERT classifier is an oracle parameter);
* `src/Integration/api_interface.py` — the compact explanation formatter.

Python `dict`s are embedded as association lists with first-match lookup and
in-place overwrite; a missing key raises `KeyError`, modelled with
`Except String`.  Python numbers are embedded as `ℚ` (floats) and `ℤ`/`ℕ`
(ints); the accumulated `confidence_score` is a Python int and is embedded
as `ℕ`.
-/

namespace XAI

/-! ## Python string primitives -/

/-- Python whitespace characters recognised by `str.split()`. -/
def isPySpace (c : Char) : Bool :=
  c = ' ' || c = '\t' || c = '\n' || c = '\x0d' || c = '\x0b' || c = '\x0c'

/-- Does the first character list start with the second? -/
def startsWithL : List Char → List Char → Bool
  | _, [] => true
  | [], _ :: _ => false
  | c :: cs, d :: ds => c = d && startsWithL cs ds

/-- Substring containment on character lists; the empty list is contained in
everything, matching Python `'' in s`. -/
def containsSubL : List Char → List Char → Bool
  | _, [] => true
  | [], _ :: _ => false
  | c :: cs, d :: ds => startsWithL (c :: cs) (d :: ds) || containsSubL cs (d :: ds)

/-- Python `sub in s` (substring containment). -/
def pyContains (s sub : String) : Bool :=
  containsSubL s.data sub.data

/-- Python `sep.join(parts)`. -/
def pyJoin (sep : String) : List String → String
  | [] => ""
  | [x] => x
  | x :: y :: ys => x ++ sep ++ pyJoin sep (y :: ys)

/-- Python `str.split()`: split on runs of whitespace, discarding empties.
`acc` holds the characters of the current token, reversed. -/
def pySplitAux : List Char → List Char → List String
  | [], [] => []
  | [], acc => [String.mk acc.reverse]
  | c :: cs, acc =>
    if isPySpace c then
      match acc with
      | [] => pySplitAux cs []
      | _ => String.mk acc.reverse :: pySplitAux cs []
    else pySplitAux cs (c :: acc)

/-- Python `text.split()`. -/
def pySplit (s : String) : List String :=
  pySplitAux s.data []

/-- Python `str.lower()` (ASCII approximation of Unicode lowercasing; the
engine only feeds it review text). -/
def pyLower (s : String) : String :=
  String.mk (s.data.map Char.toLower)

/-- Python `str.isalpha()` (ASCII approximation): non-empty and all
alphabetic. -/
def pyIsAlpha (s : String) : Bool :=
  !s.data.isEmpty && s.data.all Char.isAlpha

/-- Python `str.isupper()` restricted to the alphabetic words the extractor
applies it to: every letter uppercase. -/
def pyIsUpper (s : String) : Bool :=
  s.data.all Char.isUpper

/-- Count the maximal runs of character `c` of length at least `minLen`,
matching `len(re.findall(r'c\x7b2,\x7d', s))`-style greedy run counting.
`run` is the length of the run currently being scanned. -/
def countRunsAux (c : Char) (minLen : ℕ) : List Char → ℕ → ℕ
  | [], run => if minLen ≤ run then 1 else 0
  | d :: ds, run =>
    if d = c then countRunsAux c minLen ds (run + 1)
    else (if minLen ≤ run then 1 else 0) + countRunsAux c minLen ds 0

/-- Count maximal runs of `c` with length `≥ minLen` in `s`. -/
def countRuns (c : Char) (minLen : ℕ) (s : String) : ℕ :=
  countRunsAux c minLen s.data 0

/-! ## Python number formatting -/

/-- Round to the nearest integer, ties to even — the rounding used by
Python `format`.  The fractional part `q - ⌊q⌋` equals `rem / q.den` with
`0 ≤ rem < q.den`, so the half comparison is `2 * rem` against `q.den`. -/
def roundHalfEven (q : ℚ) : ℤ :=
  let fl := ⌊q⌋
  let rem := q.num - fl * (q.den : ℤ)
  if 2 * rem < (q.den : ℤ) then fl
  else if (q.den : ℤ) < 2 * rem then fl + 1
  else if 2 ∣ fl then fl else fl + 1

/-- Exact scaling `q * c` for an integer factor (kept in `Rat.divInt` form). -/
def ratScale (q : ℚ) (c : ℤ) : ℚ :=
  Rat.divInt (q.num * c) (q.den : ℤ)

/-- Left-pad a numeral string with zeros to width `w`. -/
def padZeros (w : ℕ) (s : String) : String :=
  if w ≤ s.length then s
  else String.mk (List.replicate (w - s.length) '0') ++ s

/-- Python `format(q, '.Df')`: fixed-point with `digits` decimals. -/
def formatFixed (digits : ℕ) (q : ℚ) : String :=
  let scaled := roundHalfEven (ratScale q (10 ^ digits))
  let n := scaled.natAbs
  let ip := n / 10 ^ digits
  let fp := n % 10 ^ digits
  (if scaled < 0 then "-" else "") ++ toString ip ++
    (if digits = 0 then "" else "." ++ padZeros digits (toString fp))

/-- Python `format(q, '.1%')`: percentage with one decimal. -/
def formatPct1 (q : ℚ) : String :=
  formatFixed 1 (ratScale q 100) ++ "%"

/-- Decimal exponent that makes `q` an integer, if one at most 17 exists. -/
def decExponent (q : ℚ) : Option ℕ :=
  (List.range 18).find? fun d => (ratScale q (10 ^ d)).den = 1

/-- Python `str(float)`.  Python prints the shortest decimal that round-trips
through the binary double; on the exact rationals of this model we print the
exact decimal expansion when one exists.  The engine never formats a float
without an explicit format spec, so this is unreachable from the embedded
code paths used by the theorems below. -/
def floatStr (q : ℚ) : String :=
  match decExponent q with
  | some 0 => toString q.num ++ ".0"
  | some d => formatFixed d q
  | none => formatFixed 17 q

/-! ## Python dictionaries -/

/-- Python dict lookup `d[k]` as an option (association list, unique keys by
construction). -/
def dictGet (d : List (String × α)) (k : String) : Option α :=
  match d with
  | [] => none
  | (k', v) :: rest => if k' = k then some v else dictGet rest k

/-- Python dict assignment `d[k] = v`: overwrite in place, else append. -/
def dictSet (d : List (String × α)) (k : String) (v : α) : List (String × α) :=
  match d with
  | [] => [(k, v)]
  | (k', v') :: rest => if k' = k then (k, v) :: rest else (k', v') :: dictSet rest k v

/-- The keys of a dict. -/
def dictKeys (d : List (String × α)) : List String :=
  d.map Prod.fst

/-! ## Python values stored in a feature dictionary -/

/-- A Python value stored in the features dict: a float, an int, or the
`spam_keywords_found` list of keyword/category records. -/
inductive PyVal where
  | num (q : ℚ)
  | int (n : ℤ)
  | kws (l : List (String × String))
deriving DecidableEq

/-- Numeric coercion applied implicitly by Python comparisons/`abs`;
a non-numeric operand raises `TypeError`. -/
def pyNum : PyVal → Except String ℚ
  | .num q => .ok q
  | .int n => .ok (n : ℚ)
  | .kws _ => .error "TypeError: not a number"

/-- Bare f-string formatting of a stored value. -/
def pyStr : PyVal → String
  | .num q => floatStr q
  | .int n => toString n
  | .kws l =>
      "[" ++ pyJoin ", "
        (l.map fun p =>
          "\x7b\x27keyword\x27: \x27" ++ p.1 ++ "\x27, \x27category\x27: \x27" ++
            p.2 ++ "\x27\x7d") ++ "]"

/-- A features dict (`features` in the Python source). -/
abbrev FeatureDict := List (String × PyVal)

/-- A threshold configuration (`thresholds` in the Python source); values are
numeric cutoffs. -/
abbrev ThresholdMap := List (String × ℚ)

/-- Lookup `features[k]`, raising `KeyError` when absent. -/
def getFeat (f : FeatureDict) (k : String) : Except String PyVal :=
  match dictGet f k with
  | some v => .ok v
  | none => .error ("KeyError: " ++ k)

/-- Lookup `thresholds[k]`, raising `KeyError` when absent. -/
def getTh (t : ThresholdMap) (k : String) : Except String ℚ :=
  match dictGet t k with
  | some v => .ok v
  | none => .error ("KeyError: " ++ k)

/-- Defaults from `src/XAI_engine/config.py` — the `THRESHOLDS` table. -/
def THRESHOLDS : ThresholdMap :=
  [("SENTIMENT_EXTREME", mkRat 85 100),
   ("WORD_COUNT_MIN", 15),
   ("WORD_COUNT_MAX", 200),
   ("ADJ_NOUN_RATIO", mkRat 25 10),
   ("FIRST_PERSON_RATIO", mkRat 15 100),
   ("SPAM_KEYWORD_MIN", 3),
   ("CAPS_RATIO_MAX", mkRat 20 100),
   ("EXCESSIVE_PUNCT_MIN", 3),
   ("UNIQUENESS_RATIO_MIN", mkRat 60 100)]

/-! ## Feature extractors (`src/XAI_engine/feature_extractors.py`)

`extract_sentiment` calls the external VADER analyser and
`extract_adjective_noun_ratio` calls the external NLTK tokenizer/POS tagger;
both external models are passed in as oracle functions (`sentimentModel`,
`posTagger`) and the surrounding Python logic is embedded faithfully. -/

/-- Function `extract_sentiment`: the VADER compound score of the text. -/
def extract_sentiment (sentimentModel : String → ℚ) (review_text : String) : ℚ :=
  sentimentModel review_text

/-- Function `extract_word_count`: `len(review_text.split())`. -/
def extract_word_count (review_text : String) : ℕ :=
  (pySplit review_text).length

/-- Result of `extract_adjective_noun_ratio`. -/
structure AdjNounResult where
  ratio : ℚ
  adjectives : ℕ
  nouns : ℕ
deriving DecidableEq

/-- Function `extract_adjective_noun_ratio`: `posTagger` stands for
`pos_tag(word_tokenize(text))` and returns (token, POS-tag) pairs;
adjective tags start with `JJ`, noun tags with `NN`, and the ratio divides
by `max(nouns, 1)`. -/
def extract_adjective_noun_ratio (posTagger : String → List (String × String))
    (review_text : String) : AdjNounResult :=
  let pos_tags := posTagger review_text
  let adjectives := (pos_tags.filter fun p => startsWithL p.2.data "JJ".data).length
  let nouns := (pos_tags.filter fun p => startsWithL p.2.data "NN".data).length
  { ratio := mkRat adjectives (max nouns 1)
    adjectives := adjectives
    nouns := nouns }

/-- The fixed first-person pronoun list of `extract_first_person_ratio`. -/
def firstPersonWords : List String :=
  ["i", "me", "my", "mine", "myself", "we", "us", "our", "ours", "ourselves"]

/-- Result of `extract_first_person_ratio`. -/
structure FirstPersonResult where
  ratio : ℚ
  count : ℕ
  total_words : ℕ
deriving DecidableEq

/-- Function `extract_first_person_ratio`. -/
def extract_first_person_ratio (review_text : String) : FirstPersonResult :=
  let words := pySplit (pyLower review_text)
  let total := words.length
  let count := (words.filter fun w => firstPersonWords.contains w).length
  { ratio := mkRat count (max total 1)
    count := count
    total_words := total }

/-- The curated spam keyword table of `detect_spam_keywords`, in source
(category, keywords) order. -/
def spamKeywordTable : List (String × List String) :=
  [("extreme_positive",
    ["amazing", "perfect", "best ever", "incredible", "outstanding", "flawless"]),
   ("extreme_negative",
    ["worst", "terrible", "horrible", "awful", "disgusting", "pathetic"]),
   ("promotional",
    ["buy now", "must have", "life changing", "miracle", "highly recommend"])]

/-- Result of `detect_spam_keywords`: the matched (keyword, category) pairs
and their count. -/
structure SpamResult where
  found : List (String × String)
  count : ℕ
deriving DecidableEq

/-- Function `detect_spam_keywords`: case-insensitive substring matches against the
keyword table, in table order. -/
def detect_spam_keywords (review_text : String) : SpamResult :=
  let review_lower := pyLower review_text
  let found := spamKeywordTable.flatMap fun cat =>
    (cat.2.filter fun kw => pyContains review_lower kw).map fun kw => (kw, cat.1)
  { found := found, count := found.length }

/-- Result of `detect_excessive_caps`. -/
structure CapsResult where
  ratio : ℚ
  count : ℕ
  words : List String
deriving DecidableEq

/-- Function `detect_excessive_caps`: all-caps alphabetic words of length > 1 over all
alphabetic words, denominator floored at 1. -/
def detect_excessive_caps (review_text : String) : CapsResult :=
  let words := (pySplit review_text).filter pyIsAlpha
  let caps_words := words.filter fun w => pyIsUpper w && 1 < w.length
  { ratio := mkRat caps_words.length (max words.length 1)
    count := caps_words.length
    words := caps_words }

/-- Result of `detect_excessive_punctuation`. -/
structure PunctResult where
  exclamations : ℕ
  questions : ℕ
  ellipses : ℕ
  total : ℕ
deriving DecidableEq

/-- Function `detect_excessive_punctuation`: maximal runs of `!!`, `??`, `...`. -/
def detect_excessive_punctuation (review_text : String) : PunctResult :=
  let exclamations := countRuns '!' 2 review_text
  let questions := countRuns '?' 2 review_text
  let ellipses := countRuns '.' 3 review_text
  { exclamations := exclamations
    questions := questions
    ellipses := ellipses
    total := exclamations + questions + ellipses }

/-- Result of `calculate_text_redundancy`. -/
structure RedundancyResult where
  uniqueness_ratio : ℚ
  unique_words : ℕ
  total_words : ℕ
deriving DecidableEq

/-- Function `calculate_text_redundancy`: distinct lowercase tokens over total tokens,
denominator floored at 1. -/
def calculate_text_redundancy (review_text : String) : RedundancyResult :=
  let words := pySplit (pyLower review_text)
  let uniq := words.dedup.length
  { uniqueness_ratio := mkRat uniq (max words.length 1)
    unique_words := uniq
    total_words := words.length }

/-- Module-level `feature_extractors.extract_all_features(review_text, tier)`:
note its Tier-2 key names (`spam_keywords_count`, `excessive_punctuation`)
differ from the ones the scorer reads. -/
def module_extract_all_features (sentimentModel : String → ℚ)
    (posTagger : String → List (String × String))
    (review_text : String) (tier : ℕ) : FeatureDict :=
  let adj_noun := extract_adjective_noun_ratio posTagger review_text
  let first_person := extract_first_person_ratio review_text
  let tier1 : FeatureDict :=
    [("sentiment", .num (extract_sentiment sentimentModel review_text)),
     ("word_count", .int (extract_word_count review_text)),
     ("adj_noun_ratio", .num adj_noun.ratio),
     ("adjective_count", .int adj_noun.adjectives),
     ("noun_count", .int adj_noun.nouns),
     ("first_person_ratio", .num first_person.ratio),
     ("first_person_count", .int first_person.count)]
  if 2 ≤ tier then
    tier1 ++
      [("spam_keywords_count", .int (detect_spam_keywords review_text).count),
       ("caps_ratio", .num (detect_excessive_caps review_text).ratio),
       ("excessive_punctuation", .int (detect_excessive_punctuation review_text).total),
       ("uniqueness_ratio", .num (calculate_text_redundancy review_text).uniqueness_ratio)]
  else tier1

/-! ## Reason generator (`src/XAI_engine/reason_generator.py`) -/

/-- One structured reason record (`feature` / `message` / `detail`). -/
structure Reason where
  feature : String
  message : String
  detail : String
deriving DecidableEq

/-- Output of `generate_explanation` (`verdict`, `confidence`, `reasons`,
`flag_count`); `confidence` is a Python int. -/
structure Explanation where
  verdict : String
  confidence : ℕ
  reasons : List Reason
  flag_count : ℕ
deriving DecidableEq

/-- Check 1, sentiment: `abs(sentiment) > thresholds['SENTIMENT_EXTREME']`
adds one reason and 25 points.  The negative-sentiment message carries the
leading space and the positive one does not, exactly as in the source. -/
def checkSentiment (f : FeatureDict) (t : ThresholdMap) :
    Except String (List Reason × ℕ) := do
  let sv ← getFeat f "sentiment"
  let sentiment ← pyNum sv
  let se ← getTh t "SENTIMENT_EXTREME"
  if se < |sentiment| then
    if 0 < sentiment then
      pure ([⟨"Sentiment",
              "Extremely positive sentiment (score: " ++ formatFixed 2 sentiment ++ "/1.0)",
              "Genuine reviews typically show more balanced emotions"⟩], 25)
    else
      pure ([⟨"Sentiment",
              " Extremely negative sentiment (score: " ++ formatFixed 2 sentiment ++ "/1.0)",
              "Genuine reviews typically show more balanced emotions"⟩], 25)
  else pure ([], 0)

/-- The short-review reason produced by check 2 for stored word count `wcv`. -/
def shortLengthReason (wcv : PyVal) : Reason :=
  ⟨"Length", " Suspiciously short review (" ++ pyStr wcv ++ " words)",
   "Genuine reviews typically provide more detail"⟩

/-- Check 2, word count: `< WORD_COUNT_MIN` adds 15 points, else
`>= WORD_COUNT_MAX` adds 10; `WORD_COUNT_MAX` is only looked up when the
`elif` is reached. -/
def checkLength (f : FeatureDict) (t : ThresholdMap) :
    Except String (List Reason × ℕ) := do
  let wcv ← getFeat f "word_count"
  let word_count ← pyNum wcv
  let mn ← getTh t "WORD_COUNT_MIN"
  if word_count < mn then
    pure ([shortLengthReason wcv], 15)
  else do
    let mx ← getTh t "WORD_COUNT_MAX"
    if mx ≤ word_count then
      pure ([⟨"Length", " Unusually long review (" ++ pyStr wcv ++ " words)",
             "May contain padding or excessive fluff"⟩], 10)
    else pure ([], 0)

/-- Check 3, adjective/noun ratio: `> ADJ_NOUN_RATIO` adds 25 points; the
detail reads `adjective_count` and `noun_count` only in the breach branch. -/
def checkAdjNoun (f : FeatureDict) (t : ThresholdMap) :
    Except String (List Reason × ℕ) := do
  let rv ← getFeat f "adj_noun_ratio"
  let adj_noun_ratio ← pyNum rv
  let th ← getTh t "ADJ_NOUN_RATIO"
  if th < adj_noun_ratio then do
    let ac ← getFeat f "adjective_count"
    let nc ← getFeat f "noun_count"
    pure ([⟨"Specificity",
            " Excessive descriptive language (adj/noun ratio: " ++
              formatFixed 1 adj_noun_ratio ++ "x)",
            "Uses " ++ pyStr ac ++ " adjectives but only " ++ pyStr nc ++
              " nouns - lacks specific details"⟩], 25)
  else pure ([], 0)

/-- Check 4, first-person pronouns: `> FIRST_PERSON_RATIO` adds 20 points. -/
def checkFirstPerson (f : FeatureDict) (t : ThresholdMap) :
    Except String (List Reason × ℕ) := do
  let rv ← getFeat f "first_person_ratio"
  let first_person_ratio ← pyNum rv
  let th ← getTh t "FIRST_PERSON_RATIO"
  if th < first_person_ratio then do
    let cnt ← getFeat f "first_person_count"
    pure ([⟨"Self-Reference",
            " Excessive self-referencing (" ++ formatPct1 first_person_ratio ++ " of words)",
            "Uses first-person pronouns " ++ pyStr cnt ++ " times - appears overly personal"⟩],
          20)
  else pure ([], 0)

/-- Check 5, spam keywords: `>= SPAM_KEYWORD_MIN` adds 15 points. -/
def checkSpam (f : FeatureDict) (t : ThresholdMap) :
    Except String (List Reason × ℕ) := do
  let sv ← getFeat f "spam_keyword_count"
  let cnt ← pyNum sv
  let th ← getTh t "SPAM_KEYWORD_MIN"
  if th ≤ cnt then
    pure ([⟨"Spam Language",
            " Contains " ++ pyStr sv ++ " spam/promotional keywords",
            "High use of marketing language"⟩], 15)
  else pure ([], 0)

/-- Check 6, capitalization: `> CAPS_RATIO_MAX` adds 10 points. -/
def checkCaps (f : FeatureDict) (t : ThresholdMap) :
    Except String (List Reason × ℕ) := do
  let rv ← getFeat f "caps_ratio"
  let caps_ratio ← pyNum rv
  let th ← getTh t "CAPS_RATIO_MAX"
  if th < caps_ratio then
    pure ([⟨"Capitalization",
            " Excessive capitalization (" ++ formatPct1 caps_ratio ++ " of words)",
            "Indicates emotional exaggeration"⟩], 10)
  else pure ([], 0)

/-- Check 7, punctuation: `>= EXCESSIVE_PUNCT_MIN` adds 10 points. -/
def checkPunct (f : FeatureDict) (t : ThresholdMap) :
    Except String (List Reason × ℕ) := do
  let pv ← getFeat f "excessive_punct_count"
  let cnt ← pyNum pv
  let th ← getTh t "EXCESSIVE_PUNCT_MIN"
  if th ≤ cnt then
    pure ([⟨"Punctuation",
            " Excessive punctuation patterns (" ++ pyStr pv ++ " instances)",
            "Indicates emotional manipulation"⟩], 10)
  else pure ([], 0)

/-- Check 8, redundancy: `< UNIQUENESS_RATIO_MIN` adds 15 points. -/
def checkRedundancy (f : FeatureDict) (t : ThresholdMap) :
    Except String (List Reason × ℕ) := do
  let rv ← getFeat f "uniqueness_ratio"
  let uniqueness_ratio ← pyNum rv
  let th ← getTh t "UNIQUENESS_RATIO_MIN"
  if uniqueness_ratio < th then
    pure ([⟨"Redundancy",
            " High text redundancy (" ++ formatPct1 uniqueness_ratio ++ " unique words)",
            "Repetitive language without substance"⟩], 15)
  else pure ([], 0)

/-- Lines 16–111 of `generate_explanation`: run the eight checks in Tier-1 →
Tier-2 source order, accumulating the appended reasons and the running
`confidence_score`. -/
def runChecks (f : FeatureDict) (t : ThresholdMap) :
    Except String (List Reason × ℕ) := do
  let (r1, c1) ← checkSentiment f t
  let (r2, c2) ← checkLength f t
  let (r3, c3) ← checkAdjNoun f t
  let (r4, c4) ← checkFirstPerson f t
  let (r5, c5) ← checkSpam f t
  let (r6, c6) ← checkCaps f t
  let (r7, c7) ← checkPunct f t
  let (r8, c8) ← checkRedundancy f t
  pure (r1 ++ r2 ++ r3 ++ r4 ++ r5 ++ r6 ++ r7 ++ r8,
        c1 + c2 + c3 + c4 + c5 + c6 + c7 + c8)

/-- The synthesized genuine-case reason appended when `confidence_score < 25`. -/
def overallReason : Reason :=
  ⟨"Overall", "No significant suspicious patterns detected",
   "Review appears to have natural linguistic characteristics"⟩

/-- Line 134 of the source: `len([r for r in reasons if '' in r['message']])`.
The filter tests containment of the empty string. -/
def flagCount (reasons : List Reason) : ℕ :=
  (reasons.filter fun r => pyContains r.message "").length

/-- Function `generate_explanation(features, thresholds)`: the eight checks followed by
the verdict bands of lines 113–135. -/
def generate_explanation (features : FeatureDict) (thresholds : ThresholdMap) :
    Except String Explanation := do
  let (reasons, confidence_score) ← runChecks features thresholds
  if 50 ≤ confidence_score then
    pure ⟨"LIKELY FAKE", min confidence_score 95, reasons, flagCount reasons⟩
  else if 25 ≤ confidence_score then
    pure ⟨"SUSPICIOUS", confidence_score + 30, reasons, flagCount reasons⟩
  else
    let reasons := reasons ++ [overallReason]
    pure ⟨"LIKELY GENUINE", 85, reasons, flagCount reasons⟩

/-! ## Engine class (`src/XAI_engine/xai_engine.py`) -/

/-- The `FakeReviewXAI` engine object: its only instance state is the
threshold dict copied from `config.THRESHOLDS` in `__init__`. -/
structure FakeReviewXAI where
  thresholds : ThresholdMap
deriving DecidableEq

/-- Constructor `FakeReviewXAI.__init__`: `self.thresholds = THRESHOLDS.copy()`. -/
def FakeReviewXAI.new : FakeReviewXAI :=
  ⟨THRESHOLDS⟩

/-- Assignment `xai.thresholds[k] = v` — the owner mutating one threshold between calls. -/
def FakeReviewXAI.setThreshold (xai : FakeReviewXAI) (k : String) (v : ℚ) :
    FakeReviewXAI :=
  ⟨dictSet xai.thresholds k v⟩

/-- Method `FakeReviewXAI.extract_all_features` (the method, which does not read
`self`): builds the features dict in source insertion order.  Its Tier-2 key
names (`spam_keyword_count`, `excessive_punct_count`) are the ones the scorer
reads, unlike the module-level `extract_all_features`. -/
def FakeReviewXAI.extract_all_features (sentimentModel : String → ℚ)
    (posTagger : String → List (String × String)) (review_text : String) :
    FeatureDict :=
  let adj_noun_result := extract_adjective_noun_ratio posTagger review_text
  let first_person_result := extract_first_person_ratio review_text
  let spam_result := detect_spam_keywords review_text
  let caps_result := detect_excessive_caps review_text
  let punct_result := detect_excessive_punctuation review_text
  let redundancy_result := calculate_text_redundancy review_text
  [("sentiment", .num (extract_sentiment sentimentModel review_text)),
   ("word_count", .int (extract_word_count review_text)),
   ("adj_noun_ratio", .num adj_noun_result.ratio),
   ("adjective_count", .int adj_noun_result.adjectives),
   ("noun_count", .int adj_noun_result.nouns),
   ("first_person_ratio", .num first_person_result.ratio),
   ("first_person_count", .int first_person_result.count),
   ("spam_keyword_count", .int spam_result.count),
   ("spam_keywords_found", .kws spam_result.found),
   ("caps_ratio", .num caps_result.ratio),
   ("caps_count", .int caps_result.count),
   ("excessive_punct_count", .int punct_result.total),
   ("uniqueness_ratio", .num redundancy_result.uniqueness_ratio)]

/-- The analysis-result dict returned by `FakeReviewXAI.analyze_review`. -/
structure AnalysisResult where
  review_text : String
  features : FeatureDict
  verdict : String
  confidence : ℕ
  reasons : List Reason
  flag_count : ℕ
deriving DecidableEq

/-- Method `FakeReviewXAI.analyze_review`: extract the features, score them against
the instance's current thresholds (re-read on this call), combine. -/
def FakeReviewXAI.analyze_review (sentimentModel : String → ℚ)
    (posTagger : String → List (String × String)) (xai : FakeReviewXAI)
    (review_text : String) : Except String AnalysisResult := do
  let features := FakeReviewXAI.extract_all_features sentimentModel posTagger review_text
  let explanation_data ← generate_explanation features xai.thresholds
  pure ⟨review_text, features, explanation_data.verdict, explanation_data.confidence,
        explanation_data.reasons, explanation_data.flag_count⟩

/-! ## Full-text renderer (`reason_generator.format_explanation_text`) -/

/-- A line of `n` copies of `c` (Python `c * n`). -/
def charLine (c : Char) (n : ℕ) : String :=
  String.mk (List.replicate n c)

/-- Renderer `format_explanation_text(analysis_result)`: the multi-line report, with
the exact source literals (including the mojibake arrow `â†’`
of line 161).  Total on the `AnalysisResult` record: well-formed input never
raises. -/
def format_explanation_text (analysis_result : AnalysisResult) : String :=
  let lines : List String :=
    [charLine '=' 60,
     "FAKE REVIEW DETECTION - XAI ANALYSIS",
     charLine '=' 60,
     "\nReview: \"" ++ (analysis_result.review_text.take 100) ++ "...\"",
     "\nVERDICT: " ++ analysis_result.verdict,
     "CONFIDENCE: " ++ toString analysis_result.confidence ++ "%",
     "\n" ++ (if 0 < analysis_result.flag_count then "SUSPICIOUS INDICATORS:" else "ANALYSIS:"),
     charLine '-' 60]
    ++ (analysis_result.reasons.enum.flatMap fun p =>
        ["\n" ++ toString (p.1 + 1) ++ ". " ++ p.2.feature,
         "   " ++ p.2.message,
         "   â†’ " ++ p.2.detail])
    ++ ["\n" ++ charLine '=' 60]
  pyJoin "\n" lines

/-! ## Hybrid analyzer (`src/Integration/hybrid_analyzer.py`)

The DistilBERT classifier is external (Hugging Face + torch); its
`predict_distilbert` output is modelled as an oracle function returning the
documented record shape. -/

/-- The record returned by `HybridAnalyzer.predict_distilbert`. -/
structure DistilbertResult where
  label : String
  prediction : String
  confidence : ℚ
  probabilities : List ℚ
deriving DecidableEq

/-- The nested `explanation` dict of the hybrid result. -/
structure HybridExplanation where
  verdict : String
  xai_confidence : ℕ
  reasons : List Reason
  features : FeatureDict
  flag_count : ℕ
deriving DecidableEq

/-- The combined result of `HybridAnalyzer.analyze`. -/
structure HybridResult where
  review_text : String
  prediction : String
  confidence : ℚ
  model_label : String
  probabilities : List ℚ
  explanation : HybridExplanation
  agreement : Bool
deriving DecidableEq

/-- Method `HybridAnalyzer.analyze`: DistilBERT prediction (oracle `db`), XAI
analysis, the two derived booleans, and `agreement` as their equality. -/
def HybridAnalyzer.analyze (db : String → DistilbertResult)
    (sentimentModel : String → ℚ) (posTagger : String → List (String × String))
    (xai_engine : FakeReviewXAI) (review_text : String) :
    Except String HybridResult := do
  let distilbert_result := db review_text
  let xai_result ← xai_engine.analyze_review sentimentModel posTagger review_text
  let distilbert_says_fake : Bool := distilbert_result.prediction == "FAKE"
  let xai_says_fake : Bool :=
    ["LIKELY FAKE", "SUSPICIOUS"].contains xai_result.verdict
  let agreement : Bool := distilbert_says_fake == xai_says_fake
  pure ⟨review_text, distilbert_result.prediction, distilbert_result.confidence,
        distilbert_result.label, distilbert_result.probabilities,
        ⟨xai_result.verdict, xai_result.confidence, xai_result.reasons,
         xai_result.features, xai_result.flag_count⟩,
        agreement⟩

/-! ## API-layer compact formatter (`src/Integration/api_interface.py`) -/

/-- Method `ReviewAnalyzer._format_explanation(analysis)`: collapse the
non-`Overall` reasons into a semicolon-joined `feature: detail` string,
falling back to the literal no-patterns message. -/
def ReviewAnalyzer.format_explanation (analysis : HybridResult) : String :=
  let reasons := analysis.explanation.reasons
  if reasons.isEmpty then "No suspicious patterns detected."
  else
    let explanation_parts :=
      (reasons.filter fun r => !(r.feature = "Overall")).map fun r =>
        r.feature ++ ": " ++ r.detail
    if explanation_parts.isEmpty then "No suspicious patterns detected."
    else pyJoin "; " explanation_parts

/-! ## Auxiliary predicates and concrete test inputs -/

/-- Is an `Except` computation a success? -/
def isOkB : Except String α → Bool
  | .ok _ => true
  | .error _ => false

/-- Is an `Except` computation an error (the Python call raised)? -/
def isErrB : Except String α → Bool
  | .ok _ => false
  | .error _ => true

/-- The feature keys `generate_explanation` reads (conditionally or not). -/
def scorerFeatureKeys : List String :=
  ["sentiment", "word_count", "adj_noun_ratio", "adjective_count", "noun_count",
   "first_person_ratio", "first_person_count", "spam_keyword_count", "caps_ratio",
   "excessive_punct_count", "uniqueness_ratio"]

/-- The nine threshold keys of the default configuration. -/
def thresholdKeys : List String :=
  ["SENTIMENT_EXTREME", "WORD_COUNT_MIN", "WORD_COUNT_MAX", "ADJ_NOUN_RATIO",
   "FIRST_PERSON_RATIO", "SPAM_KEYWORD_MIN", "CAPS_RATIO_MAX",
   "EXCESSIVE_PUNCT_MIN", "UNIQUENESS_RATIO_MIN"]

/-- The eight threshold keys `generate_explanation` looks up unconditionally;
only `WORD_COUNT_MAX` sits behind the short-review `elif`. -/
def uncondThresholdKeys : List String :=
  ["SENTIMENT_EXTREME", "WORD_COUNT_MIN", "ADJ_NOUN_RATIO", "FIRST_PERSON_RATIO",
   "SPAM_KEYWORD_MIN", "CAPS_RATIO_MAX", "EXCESSIVE_PUNCT_MIN",
   "UNIQUENESS_RATIO_MIN"]

/-- A feature dict on which no default-threshold check breaches. -/
def neutralFeatures : FeatureDict :=
  [("sentiment", .num 0),
   ("word_count", .int 50),
   ("adj_noun_ratio", .num 1),
   ("adjective_count", .int 3),
   ("noun_count", .int 3),
   ("first_person_ratio", .num 0),
   ("first_person_count", .int 0),
   ("spam_keyword_count", .int 0),
   ("spam_keywords_found", .kws []),
   ("caps_ratio", .num 0),
   ("caps_count", .int 0),
   ("excessive_punct_count", .int 0),
   ("uniqueness_ratio", .num 1)]

/-- A feature dict of a 250-word review with a capitalization breach and
nothing else: at the defaults it scores 10 (long) + 10 (caps) = 20. -/
def longCapsFeatures : FeatureDict :=
  [("sentiment", .num 0),
   ("word_count", .int 250),
   ("adj_noun_ratio", .num 1),
   ("adjective_count", .int 3),
   ("noun_count", .int 3),
   ("first_person_ratio", .num 0),
   ("first_person_count", .int 0),
   ("spam_keyword_count", .int 0),
   ("spam_keywords_found", .kws []),
   ("caps_ratio", .num (mkRat 1 2)),
   ("caps_count", .int 10),
   ("excessive_punct_count", .int 0),
   ("uniqueness_ratio", .num 1)]

/-- The defaults with `WORD_COUNT_MIN` tightened from 15 to 300 (a single
threshold made easier to breach, everything else unchanged). -/
def tightenedThresholds : ThresholdMap :=
  dictSet THRESHOLDS "WORD_COUNT_MIN" 300

/-- The defaults with the `WORD_COUNT_MAX` entry absent. -/
def thresholdsNoMax : ThresholdMap :=
  THRESHOLDS.filter fun p => !(p.1 = "WORD_COUNT_MAX")

/-- The defaults with the `SENTIMENT_EXTREME` entry absent. -/
def thresholdsNoSentiment : ThresholdMap :=
  THRESHOLDS.filter fun p => !(p.1 = "SENTIMENT_EXTREME")

/-- A five-word review text (spec scenario 5). -/
def text5 : String := "Great phone works very well"

/-- A twenty-word review text: not short at the default minimum of 15, short
once the minimum is raised to 100. -/
def text20 : String :=
  "The laptop arrived quickly and works well for daily tasks although the battery drains faster than expected during video calls"

/-- A concrete stand-in for the VADER sentiment oracle (neutral on
everything), used to instantiate witnesses. -/
def sm0 : String → ℚ := fun _ => 0

/-- A concrete stand-in for the NLTK POS-tagger oracle (tags nothing), used
to instantiate witnesses. -/
def pt0 : String → List (String × String) := fun _ => []

/-- A concrete stand-in for the DistilBERT oracle. -/
def db0 : String → DistilbertResult :=
  fun _ => ⟨"OR", "REAL", mkRat 9 10, [mkRat 1 10, mkRat 9 10]⟩

/-- A small well-formed analysis result used to instantiate witnesses. -/
def demoResult : AnalysisResult :=
  ⟨text5, neutralFeatures, "LIKELY GENUINE", 85, [overallReason], 1⟩

/-- A small well-formed hybrid result (genuine review, only the synthesized
reason) used to instantiate witnesses. -/
def demoHybrid : HybridResult :=
  ⟨text5, "REAL", mkRat 9 10, "OR", [mkRat 1 10, mkRat 9 10],
   ⟨"LIKELY GENUINE", 85, [overallReason], neutralFeatures, 1⟩, true⟩

end XAI

deriving instance DecidableEq for Except

namespace XAI

/-! ## Basic lemmas -/

/-- The empty pattern is contained in every character list (first equation of
`containsSubL`). -/
theorem containsSubL_nil (l : List Char) : containsSubL l [] = true := by
  cases l <;> rfl

/-- Python `'' in s` is true for every string `s`. -/
theorem pyContains_empty (s : String) : pyContains s "" = true := by
  unfold pyContains
  exact containsSubL_nil s.data

/-- The source's `flag_count` filter, `'' in r['message']`, keeps every
reason: `flag_count` is just the length of `reasons`, synthesized reason
included. -/
theorem flagCount_eq_length (reasons : List Reason) :
    flagCount reasons = reasons.length := by
  unfold flagCount
  rw [List.filter_eq_self.mpr fun r _ => pyContains_empty r.message]

/-- Bind on an `Except` success reduces to the continuation. -/
@[simp] theorem ok_bind (a : α) (f : α → Except String β) :
    (Except.ok a >>= f) = f a := rfl

/-- Bind on an `Except` error propagates the error. -/
@[simp] theorem err_bind (e : String) (f : α → Except String β) :
    (Except.error e >>= f : Except String β) = Except.error e := rfl

/-- Pure on `Except` is `Except.ok`. -/
@[simp] theorem pure_eq_ok (a : α) : (pure a : Except String α) = Except.ok a := rfl

/-- A list starts with the empty pattern. -/
theorem startsWithL_nil (l : List Char) : startsWithL l [] = true := by
  cases l <;> rfl

/-- A prefix match survives appending on the right. -/
theorem startsWithL_append {a sub b : List Char} (h : startsWithL a sub = true) :
    startsWithL (a ++ b) sub = true := by
  induction sub generalizing a with
  | nil => exact startsWithL_nil _
  | cons d ds ih =>
    cases a with
    | nil => simp [startsWithL] at h
    | cons c cs =>
      simp only [startsWithL, Bool.and_eq_true] at h ⊢
      exact ⟨h.1, ih h.2⟩

/-- Substring containment survives appending on the right. -/
theorem containsSubL_append_left {a sub b : List Char}
    (h : containsSubL a sub = true) : containsSubL (a ++ b) sub = true := by
  induction a with
  | nil =>
    cases sub with
    | nil => exact containsSubL_nil b
    | cons d ds => simp [containsSubL] at h
  | cons c cs ih =>
    cases sub with
    | nil => exact containsSubL_nil _
    | cons d ds =>
      simp only [containsSubL, Bool.or_eq_true] at h ⊢
      rcases h with h | h
      · exact Or.inl (startsWithL_append h)
      · exact Or.inr (ih h)

/-- Substring containment survives prepending on the left. -/
theorem containsSubL_append_right {b sub : List Char} (a : List Char)
    (h : containsSubL b sub = true) : containsSubL (a ++ b) sub = true := by
  induction a with
  | nil => exact h
  | cons c cs ih =>
    cases sub with
    | nil => exact containsSubL_nil _
    | cons d ds =>
      simp only [List.cons_append, containsSubL, Bool.or_eq_true]
      exact Or.inr ih

/-- Containment `pyContains` is stable under appending on the right. -/
theorem pyContains_append_left {s sub : String} (t : String)
    (h : pyContains s sub = true) : pyContains (s ++ t) sub = true := by
  unfold pyContains at h ⊢
  rw [String.data_append]
  exact containsSubL_append_left h

/-- Containment `pyContains` is stable under prepending on the left. -/
theorem pyContains_append_right {t sub : String} (s : String)
    (h : pyContains t sub = true) : pyContains (s ++ t) sub = true := by
  unfold pyContains at h ⊢
  rw [String.data_append]
  exact containsSubL_append_right _ h

/-- A substring of any joined part is a substring of the whole join. -/
theorem pyContains_join {sub : String} (sep : String) (xs : List String)
    (x : String) (hx : x ∈ xs) (h : pyContains x sub = true) :
    pyContains (pyJoin sep xs) sub = true := by
  induction xs with
  | nil => cases hx
  | cons a as ih =>
    cases as with
    | nil =>
      rcases List.mem_singleton.mp hx with rfl
      exact h
    | cons b bs =>
      rcases List.mem_cons.mp hx with rfl | hmem
      · exact pyContains_append_left _ (pyContains_append_left _ h)
      · exact pyContains_append_right _ (ih hmem)

/-- A join of non-empty parts is non-empty. -/
theorem pyJoin_length_pos (sep : String) (xs : List String) (hne : xs ≠ [])
    (hx : ∀ x ∈ xs, 0 < x.length) : 0 < (pyJoin sep xs).length := by
  cases xs with
  | nil => exact absurd rfl hne
  | cons x ys =>
    cases ys with
    | nil => exact hx x (List.mem_singleton.mpr rfl)
    | cons y zs =>
      show 0 < (x ++ sep ++ pyJoin sep (y :: zs)).length
      rw [String.length_append, String.length_append]
      have := hx x (by simp)
      omega

/-! ## Claim theorems -/

/-- Claim C1 (code bug evidence).  The claim says `flag_count` counts only the
reasons that represent an actual breach, excluding the synthesized
genuine-case reason.  The code filters reasons with `'' in r['message']`,
which is true of every string, so the synthesized reason is counted: on a
feature set with zero breaches at the default thresholds the result has one
reason — the synthesized `Overall` one — zero non-synthesized reasons, and
yet `flag_count = 1`. -/
theorem C1_flag_count_counts_synthesized_reason :
    generate_explanation neutralFeatures THRESHOLDS =
      .ok ⟨"LIKELY GENUINE", 85, [overallReason], 1⟩ ∧
    (([overallReason].filter fun r => !(r.feature = "Overall")).length = 0) ∧
    flagCount [overallReason] = 1 := by
  refine ⟨by decide, by decide, by decide⟩

/-- Claim C7 (code bug evidence).  Tightening the single threshold
`WORD_COUNT_MIN` from its default 15 to 300 — strictly easier to breach, all
other thresholds unchanged — on a fixed feature set (250 words, caps breach)
*decreases* the returned `flag_count` from 3 to 2: the score crosses from the
genuine band (20) into the suspicious band (25), the synthesized `Overall`
reason disappears, and the vacuous `'' in message` filter had been counting
it.  Verdict severity itself only rises here. -/
theorem C7_tightening_decreases_flag_count :
    (generate_explanation longCapsFeatures THRESHOLDS).map Explanation.flag_count =
      .ok 3 ∧
    (generate_explanation longCapsFeatures tightenedThresholds).map Explanation.flag_count =
      .ok 2 ∧
    (generate_explanation longCapsFeatures THRESHOLDS).map Explanation.verdict =
      .ok "LIKELY GENUINE" ∧
    (generate_explanation longCapsFeatures tightenedThresholds).map Explanation.verdict =
      .ok "SUSPICIOUS" ∧
    tightenedThresholds = dictSet THRESHOLDS "WORD_COUNT_MIN" 300 := by
  refine ⟨by decide, by decide, by decide, by decide, rfl⟩

/-- Claim C2.  For every feature set and threshold configuration whose checks
accumulate score `s` with reason list `rs`, `generate_explanation` succeeds
and maps the score to verdict and reported confidence exactly as specified:
`s ≥ 50` gives `LIKELY FAKE` with confidence `min s 95`; `25 ≤ s < 50` gives
`SUSPICIOUS` with confidence `s + 30`; `s < 25` gives `LIKELY GENUINE` with
confidence exactly 85 and the synthesized no-suspicious-patterns reason
appended. -/
theorem C2_verdict_bands (f : FeatureDict) (t : ThresholdMap) (rs : List Reason)
    (s : ℕ) (h : runChecks f t = .ok (rs, s)) :
    ∃ e, generate_explanation f t = .ok e ∧
      (50 ≤ s → e.verdict = "LIKELY FAKE" ∧ e.confidence = min s 95 ∧ e.reasons = rs) ∧
      (25 ≤ s → s < 50 → e.verdict = "SUSPICIOUS" ∧ e.confidence = s + 30 ∧ e.reasons = rs) ∧
      (s < 25 → e.verdict = "LIKELY GENUINE" ∧ e.confidence = 85 ∧
        e.reasons = rs ++ [overallReason]) := by
  unfold generate_explanation
  rw [h]
  simp only [ok_bind]
  split_ifs with h1 h2
  · exact ⟨_, rfl, fun _ => ⟨rfl, rfl, rfl⟩, fun _ hlt => absurd h1 (by omega),
      fun hlt => absurd h1 (by omega)⟩
  · exact ⟨_, rfl, fun hge => absurd hge (by omega), fun _ _ => ⟨rfl, rfl, rfl⟩,
      fun hlt => absurd h2 (by omega)⟩
  · exact ⟨_, rfl, fun hge => absurd hge (by omega), fun hge _ => absurd hge (by omega),
      fun _ => ⟨rfl, rfl, rfl⟩⟩

/-- Witness for C2: the neutral feature set accumulates score 0 at the
default thresholds, landing in the genuine band. -/
theorem C2_verdict_bands_witness :
    ∃ e, generate_explanation neutralFeatures THRESHOLDS = .ok e ∧
      (50 ≤ 0 → e.verdict = "LIKELY FAKE" ∧ e.confidence = min 0 95 ∧ e.reasons = []) ∧
      (25 ≤ 0 → 0 < 50 → e.verdict = "SUSPICIOUS" ∧ e.confidence = 0 + 30 ∧ e.reasons = []) ∧
      (0 < 25 → e.verdict = "LIKELY GENUINE" ∧ e.confidence = 85 ∧
        e.reasons = [] ++ [overallReason]) :=
  C2_verdict_bands neutralFeatures THRESHOLDS [] 0 (by decide)

/-- Claim C4.  Whenever the hybrid analyzer completes, its `agreement` field is
true exactly when (primary prediction is the fake class) and (rule verdict is
`LIKELY FAKE` or `SUSPICIOUS` — `SUSPICIOUS` counts as fake) coincide: stated
as an equality of `Except.map` results so that it covers every primary output
and every completed rule analysis. -/
theorem C4_agreement_reconciliation (db : String → DistilbertResult)
    (sm : String → ℚ) (pt : String → List (String × String))
    (eng : FakeReviewXAI) (text : String) :
    (HybridAnalyzer.analyze db sm pt eng text).map
      (fun r => decide (r.agreement = true ↔
        (((db text).prediction = "FAKE") ↔
         (r.explanation.verdict = "LIKELY FAKE" ∨ r.explanation.verdict = "SUSPICIOUS"))))
      = (HybridAnalyzer.analyze db sm pt eng text).map (fun _ => true) := by
  unfold HybridAnalyzer.analyze
  cases h : FakeReviewXAI.analyze_review sm pt eng text <;>
    simp [Except.map, h, List.contains]
  case ok x =>
    by_cases hp : (db text).prediction = "FAKE" <;>
    by_cases h1 : x.verdict = "LIKELY FAKE" <;>
    by_cases h2 : x.verdict = "SUSPICIOUS" <;>
      simp_all

/-- Claim C10.  The full-text renderer always produces a string containing the
literal substrings `VERDICT` and `CONFIDENCE` (it is a total function of the
well-formed record, so it never throws), and the compact API variant joins
the non-synthesized reasons as semicolon-separated `feature: detail` entries,
rendering the literal `No suspicious patterns detected.` message — never the
empty string — when no real reasons exist. -/
theorem C10_renderer_contract (r : AnalysisResult) (a : HybridResult) :
    pyContains (format_explanation_text r) "VERDICT" = true ∧
    pyContains (format_explanation_text r) "CONFIDENCE" = true ∧
    ReviewAnalyzer.format_explanation a ≠ "" ∧
    ((a.explanation.reasons.filter fun x => !(x.feature = "Overall")) = [] →
      ReviewAnalyzer.format_explanation a = "No suspicious patterns detected.") ∧
    ((a.explanation.reasons.filter fun x => !(x.feature = "Overall")) ≠ [] →
      ReviewAnalyzer.format_explanation a =
        pyJoin "; " ((a.explanation.reasons.filter fun x => !(x.feature = "Overall")).map
          fun x => x.feature ++ ": " ++ x.detail)) := by
  refine ⟨?_, ?_, ?_, ?_, ?_⟩
  · unfold format_explanation_text
    refine pyContains_join _ _ ("\nVERDICT: " ++ r.verdict) (by simp) ?_
    exact pyContains_append_left _ (by decide)
  · unfold format_explanation_text
    refine pyContains_join _ _ ("CONFIDENCE: " ++ toString r.confidence ++ "%") (by simp) ?_
    exact pyContains_append_left _ (pyContains_append_left _ (by decide))
  · unfold ReviewAnalyzer.format_explanation
    dsimp only
    split_ifs with h1 h2
    · decide
    · decide
    · intro he
      have hpos : 0 < (pyJoin "; "
          ((a.explanation.reasons.filter fun x => !(x.feature = "Overall")).map
            fun x => x.feature ++ ": " ++ x.detail)).length := by
        refine pyJoin_length_pos _ _ ?_ ?_
        · simpa [List.isEmpty_iff] using h2
        · intro x hx
          rcases List.mem_map.mp hx with ⟨y, _, rfl⟩
          rw [String.length_append, String.length_append]
          have : (": " : String).length = 2 := by decide
          omega
      rw [he] at hpos
      exact absurd hpos (by decide)
  · intro hf
    unfold ReviewAnalyzer.format_explanation
    dsimp only
    split_ifs with h1 h2
    · rfl
    · rfl
    · exact absurd (by simpa [List.isEmpty_iff] using hf) h2
  · intro hf
    unfold ReviewAnalyzer.format_explanation
    dsimp only
    split_ifs with h1 h2
    · exact absurd (by simp [List.isEmpty_iff.mp h1]) hf
    · exact absurd (List.map_eq_nil_iff.mp (List.isEmpty_iff.mp h2)) hf
    · rfl

/-- Witness for C10 at a concrete genuine-case result: the rendered report
contains the contract substrings and the compact variant falls back to the
literal message. -/
theorem C10_renderer_contract_witness :
    pyContains (format_explanation_text demoResult) "VERDICT" = true ∧
    pyContains (format_explanation_text demoResult) "CONFIDENCE" = true ∧
    ReviewAnalyzer.format_explanation demoHybrid = "No suspicious patterns detected." :=
  ⟨(C10_renderer_contract demoResult demoHybrid).1,
   (C10_renderer_contract demoResult demoHybrid).2.1,
   (C10_renderer_contract demoResult demoHybrid).2.2.2.1 (by decide)⟩

/-- Claim C9.  Every ratio-producing extractor divides by a denominator floored
at 1 (`max(·, 1) ≥ 1`), so no division-by-zero can occur; the exact rational
division `mkRat` in the embedding is applied only to these positive
denominators.  For the input `"Great product!"` the word count is 2, and the
adjective/noun ratio is `adjectives / max(nouns, 1)`, collapsing to
`adjectives / 1` whenever the tagger finds zero nouns. -/
theorem C9_ratio_denominators_floored (pt : String → List (String × String))
    (text : String) :
    ((extract_adjective_noun_ratio pt text).ratio =
        mkRat (extract_adjective_noun_ratio pt text).adjectives
          (max (extract_adjective_noun_ratio pt text).nouns 1) ∧
      1 ≤ max (extract_adjective_noun_ratio pt text).nouns 1) ∧
    ((extract_first_person_ratio text).ratio =
        mkRat (extract_first_person_ratio text).count
          (max (extract_first_person_ratio text).total_words 1) ∧
      1 ≤ max (extract_first_person_ratio text).total_words 1) ∧
    ((detect_excessive_caps text).ratio =
        mkRat (detect_excessive_caps text).count
          (max ((pySplit text).filter pyIsAlpha).length 1) ∧
      1 ≤ max ((pySplit text).filter pyIsAlpha).length 1) ∧
    ((calculate_text_redundancy text).uniqueness_ratio =
        mkRat (calculate_text_redundancy text).unique_words
          (max (calculate_text_redundancy text).total_words 1) ∧
      1 ≤ max (calculate_text_redundancy text).total_words 1) ∧
    extract_word_count "Great product!" = 2 ∧
    ((extract_adjective_noun_ratio pt "Great product!").nouns = 0 →
      (extract_adjective_noun_ratio pt "Great product!").ratio =
        mkRat (extract_adjective_noun_ratio pt "Great product!").adjectives 1) := by
  refine ⟨⟨rfl, le_max_right _ _⟩, ⟨rfl, le_max_right _ _⟩, ⟨rfl, le_max_right _ _⟩,
    ⟨rfl, le_max_right _ _⟩, by decide, ?_⟩
  intro h
  have hr : (extract_adjective_noun_ratio pt "Great product!").ratio =
      mkRat (extract_adjective_noun_ratio pt "Great product!").adjectives
        (max (extract_adjective_noun_ratio pt "Great product!").nouns 1) := rfl
  rw [hr, h]
  norm_num

/-- Witness for C9: the trivial tagger finds zero nouns in
`"Great product!"`, and the ratio collapses to division by 1. -/
theorem C9_ratio_denominators_floored_witness :
    (extract_adjective_noun_ratio pt0 "Great product!").ratio =
      mkRat (extract_adjective_noun_ratio pt0 "Great product!").adjectives 1 ∧
    extract_word_count "Great product!" = 2 :=
  ⟨(C9_ratio_denominators_floored pt0 text5).2.2.2.2.2 (by decide),
   (C9_ratio_denominators_floored pt0 text5).2.2.2.2.1⟩

/-- An erring computation stays erring under bind. -/
theorem isErrB_bind_left (a : Except String α) (g : α → Except String β)
    (h : isErrB a = true) : isErrB (a >>= g) = true := by
  cases a with
  | error e => rfl
  | ok x => simp [isErrB] at h

/-- A bind errs when every continuation errs (whatever the first step did). -/
theorem isErrB_bind_all (a : Except String α) (g : α → Except String β)
    (h : ∀ x, isErrB (g x) = true) : isErrB (a >>= g) = true := by
  cases a with
  | error e => rfl
  | ok x => exact h x

/-- Threshold lookup of an absent key raises. -/
theorem getTh_err {t : ThresholdMap} {k : String} (h : dictGet t k = none) :
    isErrB (getTh t k) = true := by
  unfold getTh
  rw [h]
  rfl

/-- Check 1 raises when `SENTIMENT_EXTREME` is absent. -/
theorem checkSentiment_err (f : FeatureDict) (t : ThresholdMap)
    (h : dictGet t "SENTIMENT_EXTREME" = none) :
    isErrB (checkSentiment f t) = true := by
  unfold checkSentiment
  exact isErrB_bind_all _ _ fun sv => isErrB_bind_all _ _ fun s =>
    isErrB_bind_left _ _ (getTh_err h)

/-- Check 2 raises when `WORD_COUNT_MIN` is absent. -/
theorem checkLength_err (f : FeatureDict) (t : ThresholdMap)
    (h : dictGet t "WORD_COUNT_MIN" = none) :
    isErrB (checkLength f t) = true := by
  unfold checkLength
  exact isErrB_bind_all _ _ fun sv => isErrB_bind_all _ _ fun s =>
    isErrB_bind_left _ _ (getTh_err h)

/-- Check 3 raises when `ADJ_NOUN_RATIO` is absent. -/
theorem checkAdjNoun_err (f : FeatureDict) (t : ThresholdMap)
    (h : dictGet t "ADJ_NOUN_RATIO" = none) :
    isErrB (checkAdjNoun f t) = true := by
  unfold checkAdjNoun
  exact isErrB_bind_all _ _ fun sv => isErrB_bind_all _ _ fun s =>
    isErrB_bind_left _ _ (getTh_err h)

/-- Check 4 raises when `FIRST_PERSON_RATIO` is absent. -/
theorem checkFirstPerson_err (f : FeatureDict) (t : ThresholdMap)
    (h : dictGet t "FIRST_PERSON_RATIO" = none) :
    isErrB (checkFirstPerson f t) = true := by
  unfold checkFirstPerson
  exact isErrB_bind_all _ _ fun sv => isErrB_bind_all _ _ fun s =>
    isErrB_bind_left _ _ (getTh_err h)

/-- Check 5 raises when `SPAM_KEYWORD_MIN` is absent. -/
theorem checkSpam_err (f : FeatureDict) (t : ThresholdMap)
    (h : dictGet t "SPAM_KEYWORD_MIN" = none) :
    isErrB (checkSpam f t) = true := by
  unfold checkSpam
  exact isErrB_bind_all _ _ fun sv => isErrB_bind_all _ _ fun s =>
    isErrB_bind_left _ _ (getTh_err h)

/-- Check 6 raises when `CAPS_RATIO_MAX` is absent. -/
theorem checkCaps_err (f : FeatureDict) (t : ThresholdMap)
    (h : dictGet t "CAPS_RATIO_MAX" = none) :
    isErrB (checkCaps f t) = true := by
  unfold checkCaps
  exact isErrB_bind_all _ _ fun sv => isErrB_bind_all _ _ fun s =>
    isErrB_bind_left _ _ (getTh_err h)

/-- Check 7 raises when `EXCESSIVE_PUNCT_MIN` is absent. -/
theorem checkPunct_err (f : FeatureDict) (t : ThresholdMap)
    (h : dictGet t "EXCESSIVE_PUNCT_MIN" = none) :
    isErrB (checkPunct f t) = true := by
  unfold checkPunct
  exact isErrB_bind_all _ _ fun sv => isErrB_bind_all _ _ fun s =>
    isErrB_bind_left _ _ (getTh_err h)

/-- Check 8 raises when `UNIQUENESS_RATIO_MIN` is absent. -/
theorem checkRedundancy_err (f : FeatureDict) (t : ThresholdMap)
    (h : dictGet t "UNIQUENESS_RATIO_MIN" = none) :
    isErrB (checkRedundancy f t) = true := by
  unfold checkRedundancy
  exact isErrB_bind_all _ _ fun sv => isErrB_bind_all _ _ fun s =>
    isErrB_bind_left _ _ (getTh_err h)

/-- An error in check 1 propagates through the check sequence. -/
theorem runChecks_err1 (f : FeatureDict) (t : ThresholdMap)
    (h : isErrB (checkSentiment f t) = true) : isErrB (runChecks f t) = true := by
  unfold runChecks
  exact isErrB_bind_left _ _ h

/-- An error in check 2 propagates through the check sequence. -/
theorem runChecks_err2 (f : FeatureDict) (t : ThresholdMap)
    (h : isErrB (checkLength f t) = true) : isErrB (runChecks f t) = true := by
  unfold runChecks
  refine isErrB_bind_all _ _ fun p1 => ?_
  obtain ⟨r1, c1⟩ := p1
  exact isErrB_bind_left _ _ h

/-- An error in check 3 propagates through the check sequence. -/
theorem runChecks_err3 (f : FeatureDict) (t : ThresholdMap)
    (h : isErrB (checkAdjNoun f t) = true) : isErrB (runChecks f t) = true := by
  unfold runChecks
  refine isErrB_bind_all _ _ fun p1 => ?_
  obtain ⟨r1, c1⟩ := p1
  refine isErrB_bind_all _ _ fun p2 => ?_
  obtain ⟨r2, c2⟩ := p2
  exact isErrB_bind_left _ _ h

/-- An error in check 4 propagates through the check sequence. -/
theorem runChecks_err4 (f : FeatureDict) (t : ThresholdMap)
    (h : isErrB (checkFirstPerson f t) = true) : isErrB (runChecks f t) = true := by
  unfold runChecks
  refine isErrB_bind_all _ _ fun p1 => ?_
  obtain ⟨r1, c1⟩ := p1
  refine isErrB_bind_all _ _ fun p2 => ?_
  obtain ⟨r2, c2⟩ := p2
  refine isErrB_bind_all _ _ fun p3 => ?_
  obtain ⟨r3, c3⟩ := p3
  exact isErrB_bind_left _ _ h

/-- An error in check 5 propagates through the check sequence. -/
theorem runChecks_err5 (f : FeatureDict) (t : ThresholdMap)
    (h : isErrB (checkSpam f t) = true) : isErrB (runChecks f t) = true := by
  unfold runChecks
  refine isErrB_bind_all _ _ fun p1 => ?_
  obtain ⟨r1, c1⟩ := p1
  refine isErrB_bind_all _ _ fun p2 => ?_
  obtain ⟨r2, c2⟩ := p2
  refine isErrB_bind_all _ _ fun p3 => ?_
  obtain ⟨r3, c3⟩ := p3
  refine isErrB_bind_all _ _ fun p4 => ?_
  obtain ⟨r4, c4⟩ := p4
  exact isErrB_bind_left _ _ h

/-- An error in check 6 propagates through the check sequence. -/
theorem runChecks_err6 (f : FeatureDict) (t : ThresholdMap)
    (h : isErrB (checkCaps f t) = true) : isErrB (runChecks f t) = true := by
  unfold runChecks
  refine isErrB_bind_all _ _ fun p1 => ?_
  obtain ⟨r1, c1⟩ := p1
  refine isErrB_bind_all _ _ fun p2 => ?_
  obtain ⟨r2, c2⟩ := p2
  refine isErrB_bind_all _ _ fun p3 => ?_
  obtain ⟨r3, c3⟩ := p3
  refine isErrB_bind_all _ _ fun p4 => ?_
  obtain ⟨r4, c4⟩ := p4
  refine isErrB_bind_all _ _ fun p5 => ?_
  obtain ⟨r5, c5⟩ := p5
  exact isErrB_bind_left _ _ h

/-- An error in check 7 propagates through the check sequence. -/
theorem runChecks_err7 (f : FeatureDict) (t : ThresholdMap)
    (h : isErrB (checkPunct f t) = true) : isErrB (runChecks f t) = true := by
  unfold runChecks
  refine isErrB_bind_all _ _ fun p1 => ?_
  obtain ⟨r1, c1⟩ := p1
  refine isErrB_bind_all _ _ fun p2 => ?_
  obtain ⟨r2, c2⟩ := p2
  refine isErrB_bind_all _ _ fun p3 => ?_
  obtain ⟨r3, c3⟩ := p3
  refine isErrB_bind_all _ _ fun p4 => ?_
  obtain ⟨r4, c4⟩ := p4
  refine isErrB_bind_all _ _ fun p5 => ?_
  obtain ⟨r5, c5⟩ := p5
  refine isErrB_bind_all _ _ fun p6 => ?_
  obtain ⟨r6, c6⟩ := p6
  exact isErrB_bind_left _ _ h

/-- An error in check 8 propagates through the check sequence. -/
theorem runChecks_err8 (f : FeatureDict) (t : ThresholdMap)
    (h : isErrB (checkRedundancy f t) = true) : isErrB (runChecks f t) = true := by
  unfold runChecks
  refine isErrB_bind_all _ _ fun p1 => ?_
  obtain ⟨r1, c1⟩ := p1
  refine isErrB_bind_all _ _ fun p2 => ?_
  obtain ⟨r2, c2⟩ := p2
  refine isErrB_bind_all _ _ fun p3 => ?_
  obtain ⟨r3, c3⟩ := p3
  refine isErrB_bind_all _ _ fun p4 => ?_
  obtain ⟨r4, c4⟩ := p4
  refine isErrB_bind_all _ _ fun p5 => ?_
  obtain ⟨r5, c5⟩ := p5
  refine isErrB_bind_all _ _ fun p6 => ?_
  obtain ⟨r6, c6⟩ := p6
  refine isErrB_bind_all _ _ fun p7 => ?_
  obtain ⟨r7, c7⟩ := p7
  exact isErrB_bind_left _ _ h

/-- A check-sequence error makes `generate_explanation` raise. -/
theorem generate_err_of_runChecks (f : FeatureDict) (t : ThresholdMap)
    (h : isErrB (runChecks f t) = true) :
    isErrB (generate_explanation f t) = true := by
  unfold generate_explanation
  exact isErrB_bind_left _ _ h

/-- Counterexample to C5 as stated: `WORD_COUNT_MAX` is a threshold key of
the scorer's required configuration, yet with it absent and a 5-word feature
set the call *succeeds* — the `elif` guarding the long-review check is never
reached, so nothing raises. -/
theorem C5_missing_threshold_counterexample :
    dictGet thresholdsNoMax "WORD_COUNT_MAX" = none ∧
    "WORD_COUNT_MAX" ∈ dictKeys THRESHOLDS ∧
    isOkB (generate_explanation (dictSet neutralFeatures "word_count" (.int 5))
      thresholdsNoMax) = true := by
  refine ⟨by decide, by decide, by decide⟩

/-- Claim C5 (amended).  Absence of any of the eight unconditionally-read
threshold keys makes `generate_explanation` raise `KeyError` for every
feature set; absence of the ninth key, `WORD_COUNT_MAX`, raises exactly when
the long-review `elif` is reached (demonstrated here on a feature set with
`word_count = 50 ≥ WORD_COUNT_MIN`).  Nothing is silently skipped or
defaulted on the always-read keys. -/
theorem C5_missing_threshold_fails_loudly :
    (∀ (f : FeatureDict) (t : ThresholdMap) (k : String), k ∈ uncondThresholdKeys →
      dictGet t k = none → isErrB (generate_explanation f t) = true) ∧
    dictGet thresholdsNoMax "WORD_COUNT_MAX" = none ∧
    isErrB (generate_explanation neutralFeatures thresholdsNoMax) = true := by
  refine ⟨?_, by decide, by decide⟩
  intro f t k hk hnone
  fin_cases hk
  · exact generate_err_of_runChecks f t (runChecks_err1 f t (checkSentiment_err f t hnone))
  · exact generate_err_of_runChecks f t (runChecks_err2 f t (checkLength_err f t hnone))
  · exact generate_err_of_runChecks f t (runChecks_err3 f t (checkAdjNoun_err f t hnone))
  · exact generate_err_of_runChecks f t (runChecks_err4 f t (checkFirstPerson_err f t hnone))
  · exact generate_err_of_runChecks f t (runChecks_err5 f t (checkSpam_err f t hnone))
  · exact generate_err_of_runChecks f t (runChecks_err6 f t (checkCaps_err f t hnone))
  · exact generate_err_of_runChecks f t (runChecks_err7 f t (checkPunct_err f t hnone))
  · exact generate_err_of_runChecks f t (runChecks_err8 f t (checkRedundancy_err f t hnone))

/-- Witness for C5: dropping `SENTIMENT_EXTREME` from the defaults makes the
neutral feature set's analysis raise. -/
theorem C5_missing_threshold_fails_loudly_witness :
    isErrB (generate_explanation neutralFeatures thresholdsNoSentiment) = true :=
  C5_missing_threshold_fails_loudly.1 neutralFeatures thresholdsNoSentiment
    "SENTIMENT_EXTREME" (by decide) (by decide)

/-- Shape of check 1: no contribution, or one `Sentiment` reason with positive weight. -/
theorem checkSentiment_shape {f : FeatureDict} {t : ThresholdMap} {rs : List Reason}
    {c : ℕ} (h : checkSentiment f t = .ok (rs, c)) :
    (rs = [] ∧ c = 0) ∨ (∃ x, rs = [x] ∧ x.feature = "Sentiment" ∧ 0 < c) := by
  unfold checkSentiment at h
  cases h1 : getFeat f "sentiment" with
  | error e => rw [h1] at h; simp at h
  | ok sv =>
    rw [h1] at h; simp only [ok_bind] at h
    cases h2 : pyNum sv with
    | error e => rw [h2] at h; simp at h
    | ok q =>
      rw [h2] at h; simp only [ok_bind] at h
      cases h3 : getTh t "SENTIMENT_EXTREME" with
      | error e => rw [h3] at h; simp at h
      | ok se =>
        rw [h3] at h; simp only [ok_bind] at h
        split_ifs at h <;>
          simp only [pure_eq_ok, Except.ok.injEq, Prod.mk.injEq] at h
        · exact Or.inr ⟨_, h.1.symm, rfl, by omega⟩
        · exact Or.inr ⟨_, h.1.symm, rfl, by omega⟩
        · exact Or.inl ⟨h.1.symm, h.2.symm⟩



/-- Shape of check 2: no contribution, or one `Length` reason with positive weight. -/
theorem checkLength_shape {f : FeatureDict} {t : ThresholdMap} {rs : List Reason}
    {c : ℕ} (h : checkLength f t = .ok (rs, c)) :
    (rs = [] ∧ c = 0) ∨ (∃ x, rs = [x] ∧ x.feature = "Length" ∧ 0 < c) := by
  unfold checkLength at h
  cases h1 : getFeat f "word_count" with
  | error e => rw [h1] at h; simp at h
  | ok sv =>
    rw [h1] at h; simp only [ok_bind] at h
    cases h2 : pyNum sv with
    | error e => rw [h2] at h; simp at h
    | ok q =>
      rw [h2] at h; simp only [ok_bind] at h
      cases h3 : getTh t "WORD_COUNT_MIN" with
      | error e => rw [h3] at h; simp at h
      | ok mn =>
        rw [h3] at h; simp only [ok_bind] at h
        split_ifs at h with h4
        · simp only [pure_eq_ok, Except.ok.injEq, Prod.mk.injEq] at h
          exact Or.inr ⟨_, h.1.symm, rfl, by omega⟩
        · cases h5 : getTh t "WORD_COUNT_MAX" with
          | error e => rw [h5] at h; simp at h
          | ok mx =>
            rw [h5] at h; simp only [ok_bind] at h
            split_ifs at h <;>
              simp only [pure_eq_ok, Except.ok.injEq, Prod.mk.injEq] at h
            · exact Or.inr ⟨_, h.1.symm, rfl, by omega⟩
            · exact Or.inl ⟨h.1.symm, h.2.symm⟩

/-- Shape of check 3: no contribution, or one `Specificity` reason with positive weight. -/
theorem checkAdjNoun_shape {f : FeatureDict} {t : ThresholdMap} {rs : List Reason}
    {c : ℕ} (h : checkAdjNoun f t = .ok (rs, c)) :
    (rs = [] ∧ c = 0) ∨ (∃ x, rs = [x] ∧ x.feature = "Specificity" ∧ 0 < c) := by
  unfold checkAdjNoun at h
  cases h1 : getFeat f "adj_noun_ratio" with
  | error e => rw [h1] at h; simp at h
  | ok sv =>
    rw [h1] at h; simp only [ok_bind] at h
    cases h2 : pyNum sv with
    | error e => rw [h2] at h; simp at h
    | ok q =>
      rw [h2] at h; simp only [ok_bind] at h
      cases h3 : getTh t "ADJ_NOUN_RATIO" with
      | error e => rw [h3] at h; simp at h
      | ok th =>
        rw [h3] at h; simp only [ok_bind] at h
        split_ifs at h
        · cases h4 : getFeat f "adjective_count" with
          | error e => rw [h4] at h; simp at h
          | ok ac =>
            rw [h4] at h; simp only [ok_bind] at h
            cases h5 : getFeat f "noun_count" with
            | error e => rw [h5] at h; simp at h
            | ok nc =>
              rw [h5] at h
              simp only [ok_bind, pure_eq_ok, Except.ok.injEq, Prod.mk.injEq] at h
              exact Or.inr ⟨_, h.1.symm, rfl, by omega⟩
        · simp only [pure_eq_ok, Except.ok.injEq, Prod.mk.injEq] at h
          exact Or.inl ⟨h.1.symm, h.2.symm⟩

/-- Shape of check 4: no contribution, or one `Self-Reference` reason with positive weight. -/
theorem checkFirstPerson_shape {f : FeatureDict} {t : ThresholdMap} {rs : List Reason}
    {c : ℕ} (h : checkFirstPerson f t = .ok (rs, c)) :
    (rs = [] ∧ c = 0) ∨ (∃ x, rs = [x] ∧ x.feature = "Self-Reference" ∧ 0 < c) := by
  unfold checkFirstPerson at h
  cases h1 : getFeat f "first_person_ratio" with
  | error e => rw [h1] at h; simp at h
  | ok sv =>
    rw [h1] at h; simp only [ok_bind] at h
    cases h2 : pyNum sv with
    | error e => rw [h2] at h; simp at h
    | ok q =>
      rw [h2] at h; simp only [ok_bind] at h
      cases h3 : getTh t "FIRST_PERSON_RATIO" with
      | error e => rw [h3] at h; simp at h
      | ok th =>
        rw [h3] at h; simp only [ok_bind] at h
        split_ifs at h
        · cases h4 : getFeat f "first_person_count" with
          | error e => rw [h4] at h; simp at h
          | ok cnt =>
            rw [h4] at h
            simp only [ok_bind, pure_eq_ok, Except.ok.injEq, Prod.mk.injEq] at h
            exact Or.inr ⟨_, h.1.symm, rfl, by omega⟩
        · simp only [pure_eq_ok, Except.ok.injEq, Prod.mk.injEq] at h
          exact Or.inl ⟨h.1.symm, h.2.symm⟩

/-- Shape of check 5: no contribution, or one `Spam Language` reason with positive weight. -/
theorem checkSpam_shape {f : FeatureDict} {t : ThresholdMap} {rs : List Reason}
    {c : ℕ} (h : checkSpam f t = .ok (rs, c)) :
    (rs = [] ∧ c = 0) ∨ (∃ x, rs = [x] ∧ x.feature = "Spam Language" ∧ 0 < c) := by
  unfold checkSpam at h
  cases h1 : getFeat f "spam_keyword_count" with
  | error e => rw [h1] at h; simp at h
  | ok sv =>
    rw [h1] at h; simp only [ok_bind] at h
    cases h2 : pyNum sv with
    | error e => rw [h2] at h; simp at h
    | ok q =>
      rw [h2] at h; simp only [ok_bind] at h
      cases h3 : getTh t "SPAM_KEYWORD_MIN" with
      | error e => rw [h3] at h; simp at h
      | ok th =>
        rw [h3] at h; simp only [ok_bind] at h
        split_ifs at h <;>
          simp only [pure_eq_ok, Except.ok.injEq, Prod.mk.injEq] at h
        · exact Or.inr ⟨_, h.1.symm, rfl, by omega⟩
        · exact Or.inl ⟨h.1.symm, h.2.symm⟩

/-- Shape of check 6: no contribution, or one `Capitalization` reason with positive weight. -/
theorem checkCaps_shape {f : FeatureDict} {t : ThresholdMap} {rs : List Reason}
    {c : ℕ} (h : checkCaps f t = .ok (rs, c)) :
    (rs = [] ∧ c = 0) ∨ (∃ x, rs = [x] ∧ x.feature = "Capitalization" ∧ 0 < c) := by
  unfold checkCaps at h
  cases h1 : getFeat f "caps_ratio" with
  | error e => rw [h1] at h; simp at h
  | ok sv =>
    rw [h1] at h; simp only [ok_bind] at h
    cases h2 : pyNum sv with
    | error e => rw [h2] at h; simp at h
    | ok q =>
      rw [h2] at h; simp only [ok_bind] at h
      cases h3 : getTh t "CAPS_RATIO_MAX" with
      | error e => rw [h3] at h; simp at h
      | ok th =>
        rw [h3] at h; simp only [ok_bind] at h
        split_ifs at h <;>
          simp only [pure_eq_ok, Except.ok.injEq, Prod.mk.injEq] at h
        · exact Or.inr ⟨_, h.1.symm, rfl, by omega⟩
        · exact Or.inl ⟨h.1.symm, h.2.symm⟩

/-- Shape of check 7: no contribution, or one `Punctuation` reason with positive weight. -/
theorem checkPunct_shape {f : FeatureDict} {t : ThresholdMap} {rs : List Reason}
    {c : ℕ} (h : checkPunct f t = .ok (rs, c)) :
    (rs = [] ∧ c = 0) ∨ (∃ x, rs = [x] ∧ x.feature = "Punctuation" ∧ 0 < c) := by
  unfold checkPunct at h
  cases h1 : getFeat f "excessive_punct_count" with
  | error e => rw [h1] at h; simp at h
  | ok sv =>
    rw [h1] at h; simp only [ok_bind] at h
    cases h2 : pyNum sv with
    | error e => rw [h2] at h; simp at h
    | ok q =>
      rw [h2] at h; simp only [ok_bind] at h
      cases h3 : getTh t "EXCESSIVE_PUNCT_MIN" with
      | error e => rw [h3] at h; simp at h
      | ok th =>
        rw [h3] at h; simp only [ok_bind] at h
        split_ifs at h <;>
          simp only [pure_eq_ok, Except.ok.injEq, Prod.mk.injEq] at h
        · exact Or.inr ⟨_, h.1.symm, rfl, by omega⟩
        · exact Or.inl ⟨h.1.symm, h.2.symm⟩

/-- Shape of check 8: no contribution, or one `Redundancy` reason with positive weight. -/
theorem checkRedundancy_shape {f : FeatureDict} {t : ThresholdMap} {rs : List Reason}
    {c : ℕ} (h : checkRedundancy f t = .ok (rs, c)) :
    (rs = [] ∧ c = 0) ∨ (∃ x, rs = [x] ∧ x.feature = "Redundancy" ∧ 0 < c) := by
  unfold checkRedundancy at h
  cases h1 : getFeat f "uniqueness_ratio" with
  | error e => rw [h1] at h; simp at h
  | ok sv =>
    rw [h1] at h; simp only [ok_bind] at h
    cases h2 : pyNum sv with
    | error e => rw [h2] at h; simp at h
    | ok q =>
      rw [h2] at h; simp only [ok_bind] at h
      cases h3 : getTh t "UNIQUENESS_RATIO_MIN" with
      | error e => rw [h3] at h; simp at h
      | ok th =>
        rw [h3] at h; simp only [ok_bind] at h
        split_ifs at h <;>
          simp only [pure_eq_ok, Except.ok.injEq, Prod.mk.injEq] at h
        · exact Or.inr ⟨_, h.1.symm, rfl, by omega⟩
        · exact Or.inl ⟨h.1.symm, h.2.symm⟩



/-- Inversion of a successful check sequence into its eight per-check
contributions: the reason list is their concatenation in source order and the
score is the sum of their weights. -/
theorem runChecks_inv {f : FeatureDict} {t : ThresholdMap} {rs : List Reason}
    {s : ℕ} (h : runChecks f t = .ok (rs, s)) :
    ∃ r1 c1 r2 c2 r3 c3 r4 c4 r5 c5 r6 c6 r7 c7 r8 c8,
      checkSentiment f t = .ok (r1, c1) ∧ checkLength f t = .ok (r2, c2) ∧
      checkAdjNoun f t = .ok (r3, c3) ∧ checkFirstPerson f t = .ok (r4, c4) ∧
      checkSpam f t = .ok (r5, c5) ∧ checkCaps f t = .ok (r6, c6) ∧
      checkPunct f t = .ok (r7, c7) ∧ checkRedundancy f t = .ok (r8, c8) ∧
      rs = r1 ++ r2 ++ r3 ++ r4 ++ r5 ++ r6 ++ r7 ++ r8 ∧
      s = c1 + c2 + c3 + c4 + c5 + c6 + c7 + c8 := by
  unfold runChecks at h
  cases h1 : checkSentiment f t with
  | error e => rw [h1] at h; simp at h
  | ok p1 =>
  rw [h1] at h; simp only [ok_bind] at h
  obtain ⟨r1, c1⟩ := p1
  cases h2 : checkLength f t with
  | error e => rw [h2] at h; simp at h
  | ok p2 =>
  rw [h2] at h; simp only [ok_bind] at h
  obtain ⟨r2, c2⟩ := p2
  cases h3 : checkAdjNoun f t with
  | error e => rw [h3] at h; simp at h
  | ok p3 =>
  rw [h3] at h; simp only [ok_bind] at h
  obtain ⟨r3, c3⟩ := p3
  cases h4 : checkFirstPerson f t with
  | error e => rw [h4] at h; simp at h
  | ok p4 =>
  rw [h4] at h; simp only [ok_bind] at h
  obtain ⟨r4, c4⟩ := p4
  cases h5 : checkSpam f t with
  | error e => rw [h5] at h; simp at h
  | ok p5 =>
  rw [h5] at h; simp only [ok_bind] at h
  obtain ⟨r5, c5⟩ := p5
  cases h6 : checkCaps f t with
  | error e => rw [h6] at h; simp at h
  | ok p6 =>
  rw [h6] at h; simp only [ok_bind] at h
  obtain ⟨r6, c6⟩ := p6
  cases h7 : checkPunct f t with
  | error e => rw [h7] at h; simp at h
  | ok p7 =>
  rw [h7] at h; simp only [ok_bind] at h
  obtain ⟨r7, c7⟩ := p7
  cases h8 : checkRedundancy f t with
  | error e => rw [h8] at h; simp at h
  | ok p8 =>
  rw [h8] at h; simp only [ok_bind] at h
  obtain ⟨r8, c8⟩ := p8
  simp only [pure_eq_ok, Except.ok.injEq, Prod.mk.injEq] at h
  exact ⟨r1, c1, r2, c2, r3, c3, r4, c4, r5, c5, r6, c6, r7, c7, r8, c8,
    rfl, rfl, rfl, rfl, rfl, rfl, rfl, rfl, h.1.symm, h.2.symm⟩



/-- A check whose reason contribution is empty contributed zero weight. -/
theorem shape_nil {rs : List Reason} {c : ℕ} {F : String}
    (hsh : (rs = [] ∧ c = 0) ∨ ∃ x, rs = [x] ∧ x.feature = F ∧ 0 < c)
    (hrs : rs = []) : c = 0 := by
  rcases hsh with ⟨_, hc⟩ | ⟨x, hx, _, _⟩
  · exact hc
  · rw [hx] at hrs; cases hrs

/-- An empty reason list forces an accumulated score of zero. -/
theorem score_zero_of_reasons_nil {f : FeatureDict} {t : ThresholdMap} {s : ℕ}
    (h : runChecks f t = .ok ([], s)) : s = 0 := by
  obtain ⟨r1, c1, r2, c2, r3, c3, r4, c4, r5, c5, r6, c6, r7, c7, r8, c8,
    h1, h2, h3, h4, h5, h6, h7, h8, hrs, hsum⟩ := runChecks_inv h
  have hn : r1 = [] ∧ (r2 = [] ∧ (r3 = [] ∧ (r4 = [] ∧ (r5 = [] ∧ (r6 = [] ∧
      (r7 = [] ∧ r8 = [])))))) := by
    simpa [List.append_eq_nil, and_assoc] using hrs.symm
  obtain ⟨n1, n2, n3, n4, n5, n6, n7, n8⟩ := hn
  have e1 := shape_nil (checkSentiment_shape h1) n1
  have e2 := shape_nil (checkLength_shape h2) n2
  have e3 := shape_nil (checkAdjNoun_shape h3) n3
  have e4 := shape_nil (checkFirstPerson_shape h4) n4
  have e5 := shape_nil (checkSpam_shape h5) n5
  have e6 := shape_nil (checkCaps_shape h6) n6
  have e7 := shape_nil (checkPunct_shape h7) n7
  have e8 := shape_nil (checkRedundancy_shape h8) n8
  omega

/-- A positive accumulated score forces a non-empty breach-reason list. -/
theorem reasons_ne_nil_of_score_pos {f : FeatureDict} {t : ThresholdMap}
    {rs : List Reason} {s : ℕ} (h : runChecks f t = .ok (rs, s)) (hs : 0 < s) :
    rs ≠ [] := by
  intro hrs
  subst hrs
  have := score_zero_of_reasons_nil h
  omega

/-- Claim C6.  Whenever `generate_explanation` succeeds its `reasons` list is
non-empty, and whenever no feature check breached (the checks produced the
empty reason list) the verdict is `LIKELY GENUINE` and the reasons are
exactly the one synthesized no-suspicious-patterns reason. -/
theorem C6_nonempty_reasons (f : FeatureDict) (t : ThresholdMap) (e : Explanation)
    (he : generate_explanation f t = .ok e) :
    e.reasons ≠ [] ∧
    (∀ rs s, runChecks f t = .ok (rs, s) → rs = [] →
      e.verdict = "LIKELY GENUINE" ∧ e.reasons = [overallReason]) := by
  cases hrc : runChecks f t with
  | error err =>
    unfold generate_explanation at he
    rw [hrc] at he
    simp at he
  | ok p =>
    obtain ⟨rs, s⟩ := p
    unfold generate_explanation at he
    rw [hrc] at he
    simp only [ok_bind] at he
    split_ifs at he with hb1 hb2 <;>
      (have hee := Except.ok.inj he; subst hee)
    · refine ⟨reasons_ne_nil_of_score_pos hrc (by omega), ?_⟩
      intro rs' s' h' hnil
      obtain ⟨hr, hs2⟩ := Prod.mk.injEq _ _ _ _ |>.mp (Except.ok.inj h')
      rw [← hr] at hnil
      subst hnil
      have := score_zero_of_reasons_nil hrc
      omega
    · refine ⟨reasons_ne_nil_of_score_pos hrc (by omega), ?_⟩
      intro rs' s' h' hnil
      obtain ⟨hr, hs2⟩ := Prod.mk.injEq _ _ _ _ |>.mp (Except.ok.inj h')
      rw [← hr] at hnil
      subst hnil
      have := score_zero_of_reasons_nil hrc
      omega
    · refine ⟨by simp, ?_⟩
      intro rs' s' h' hnil
      obtain ⟨hr, hs2⟩ := Prod.mk.injEq _ _ _ _ |>.mp (Except.ok.inj h')
      rw [← hr] at hnil
      subst hnil
      exact ⟨rfl, by simp⟩

/-- Witness for C6: the neutral feature set at the defaults yields the
zero-breach genuine explanation with exactly the synthesized reason. -/
theorem C6_nonempty_reasons_witness :
    (⟨"LIKELY GENUINE", 85, [overallReason], 1⟩ : Explanation).reasons ≠ [] ∧
    (∀ rs s, runChecks neutralFeatures THRESHOLDS = .ok (rs, s) → rs = [] →
      (⟨"LIKELY GENUINE", 85, [overallReason], 1⟩ : Explanation).verdict =
        "LIKELY GENUINE" ∧
      (⟨"LIKELY GENUINE", 85, [overallReason], 1⟩ : Explanation).reasons =
        [overallReason]) :=
  C6_nonempty_reasons neutralFeatures THRESHOLDS
    ⟨"LIKELY GENUINE", 85, [overallReason], 1⟩ (by decide)

/-- Threshold lookup of a present key succeeds with its value. -/
theorem getTh_ok {t : ThresholdMap} {k : String} {q : ℚ}
    (h : dictGet t k = some q) : getTh t k = .ok q := by
  unfold getTh
  rw [h]

/-- A bind of a success into all-succeeding continuations succeeds. -/
theorem isOkB_bind (a : Except String α) (g : α → Except String β)
    (ha : isOkB a = true) (hg : ∀ x, isOkB (g x) = true) :
    isOkB (a >>= g) = true := by
  cases a with
  | error e => simp [isOkB] at ha
  | ok x => exact hg x

/-- Check 1 succeeds on the engine's feature dict when its threshold key is present. -/
theorem checkSentiment_ok_engine (sm : String → ℚ)
    (pt : String → List (String × String)) (text : String) {t : ThresholdMap}
    {q : ℚ} (hq : dictGet t "SENTIMENT_EXTREME" = some q) :
    isOkB (checkSentiment (FakeReviewXAI.extract_all_features sm pt text) t) = true := by
  unfold checkSentiment
  rw [show getFeat (FakeReviewXAI.extract_all_features sm pt text) "sentiment" =
      .ok (.num (extract_sentiment sm text)) from rfl]
  simp only [ok_bind]
  rw [show pyNum (.num (extract_sentiment sm text)) =
      .ok (extract_sentiment sm text) from rfl]
  simp only [ok_bind]
  rw [getTh_ok hq]
  simp only [ok_bind]
  split_ifs <;> rfl

/-- Check 2 succeeds on the engine's feature dict when both length threshold keys are present. -/
theorem checkLength_ok_engine (sm : String → ℚ)
    (pt : String → List (String × String)) (text : String) {t : ThresholdMap}
    {q1 q2 : ℚ} (hq1 : dictGet t "WORD_COUNT_MIN" = some q1)
    (hq2 : dictGet t "WORD_COUNT_MAX" = some q2) :
    isOkB (checkLength (FakeReviewXAI.extract_all_features sm pt text) t) = true := by
  unfold checkLength
  rw [show getFeat (FakeReviewXAI.extract_all_features sm pt text) "word_count" =
      .ok (.int (extract_word_count text)) from rfl]
  simp only [ok_bind]
  rw [show pyNum (.int (extract_word_count text)) =
      .ok ((extract_word_count text : ℤ) : ℚ) from rfl]
  simp only [ok_bind]
  rw [getTh_ok hq1]
  simp only [ok_bind]
  split_ifs with h4
  · rfl
  · rw [getTh_ok hq2]
    simp only [ok_bind]
    split_ifs <;> rfl

/-- Check 3 succeeds on the engine's feature dict when its threshold key is present. -/
theorem checkAdjNoun_ok_engine (sm : String → ℚ)
    (pt : String → List (String × String)) (text : String) {t : ThresholdMap}
    {q : ℚ} (hq : dictGet t "ADJ_NOUN_RATIO" = some q) :
    isOkB (checkAdjNoun (FakeReviewXAI.extract_all_features sm pt text) t) = true := by
  unfold checkAdjNoun
  rw [show getFeat (FakeReviewXAI.extract_all_features sm pt text) "adj_noun_ratio" =
      .ok (.num (extract_adjective_noun_ratio pt text).ratio) from rfl]
  simp only [ok_bind]
  rw [show pyNum (.num (extract_adjective_noun_ratio pt text).ratio) =
      .ok (extract_adjective_noun_ratio pt text).ratio from rfl]
  simp only [ok_bind]
  rw [getTh_ok hq]
  simp only [ok_bind]
  split_ifs
  · rw [show getFeat (FakeReviewXAI.extract_all_features sm pt text) "adjective_count" =
        .ok (.int (extract_adjective_noun_ratio pt text).adjectives) from rfl]
    simp only [ok_bind]
    rw [show getFeat (FakeReviewXAI.extract_all_features sm pt text) "noun_count" =
        .ok (.int (extract_adjective_noun_ratio pt text).nouns) from rfl]
    simp only [ok_bind]
    rfl
  · rfl

/-- Check 4 succeeds on the engine's feature dict when its threshold key is present. -/
theorem checkFirstPerson_ok_engine (sm : String → ℚ)
    (pt : String → List (String × String)) (text : String) {t : ThresholdMap}
    {q : ℚ} (hq : dictGet t "FIRST_PERSON_RATIO" = some q) :
    isOkB (checkFirstPerson (FakeReviewXAI.extract_all_features sm pt text) t) = true := by
  unfold checkFirstPerson
  rw [show getFeat (FakeReviewXAI.extract_all_features sm pt text) "first_person_ratio" =
      .ok (.num (extract_first_person_ratio text).ratio) from rfl]
  simp only [ok_bind]
  rw [show pyNum (.num (extract_first_person_ratio text).ratio) =
      .ok (extract_first_person_ratio text).ratio from rfl]
  simp only [ok_bind]
  rw [getTh_ok hq]
  simp only [ok_bind]
  split_ifs
  · rw [show getFeat (FakeReviewXAI.extract_all_features sm pt text) "first_person_count" =
        .ok (.int (extract_first_person_ratio text).count) from rfl]
    simp only [ok_bind]
    rfl
  · rfl

/-- Check 5 succeeds on the engine's feature dict when its threshold key is present. -/
theorem checkSpam_ok_engine (sm : String → ℚ)
    (pt : String → List (String × String)) (text : String) {t : ThresholdMap}
    {q : ℚ} (hq : dictGet t "SPAM_KEYWORD_MIN" = some q) :
    isOkB (checkSpam (FakeReviewXAI.extract_all_features sm pt text) t) = true := by
  unfold checkSpam
  rw [show getFeat (FakeReviewXAI.extract_all_features sm pt text) "spam_keyword_count" =
      .ok (.int (detect_spam_keywords text).count) from rfl]
  simp only [ok_bind]
  rw [show pyNum (.int (detect_spam_keywords text).count) =
      .ok (((detect_spam_keywords text).count : ℤ) : ℚ) from rfl]
  simp only [ok_bind]
  rw [getTh_ok hq]
  simp only [ok_bind]
  split_ifs <;> rfl

/-- Check 6 succeeds on the engine's feature dict when its threshold key is present. -/
theorem checkCaps_ok_engine (sm : String → ℚ)
    (pt : String → List (String × String)) (text : String) {t : ThresholdMap}
    {q : ℚ} (hq : dictGet t "CAPS_RATIO_MAX" = some q) :
    isOkB (checkCaps (FakeReviewXAI.extract_all_features sm pt text) t) = true := by
  unfold checkCaps
  rw [show getFeat (FakeReviewXAI.extract_all_features sm pt text) "caps_ratio" =
      .ok (.num (detect_excessive_caps text).ratio) from rfl]
  simp only [ok_bind]
  rw [show pyNum (.num (detect_excessive_caps text).ratio) =
      .ok (detect_excessive_caps text).ratio from rfl]
  simp only [ok_bind]
  rw [getTh_ok hq]
  simp only [ok_bind]
  split_ifs <;> rfl

/-- Check 7 succeeds on the engine's feature dict when its threshold key is present. -/
theorem checkPunct_ok_engine (sm : String → ℚ)
    (pt : String → List (String × String)) (text : String) {t : ThresholdMap}
    {q : ℚ} (hq : dictGet t "EXCESSIVE_PUNCT_MIN" = some q) :
    isOkB (checkPunct (FakeReviewXAI.extract_all_features sm pt text) t) = true := by
  unfold checkPunct
  rw [show getFeat (FakeReviewXAI.extract_all_features sm pt text) "excessive_punct_count" =
      .ok (.int (detect_excessive_punctuation text).total) from rfl]
  simp only [ok_bind]
  rw [show pyNum (.int (detect_excessive_punctuation text).total) =
      .ok (((detect_excessive_punctuation text).total : ℤ) : ℚ) from rfl]
  simp only [ok_bind]
  rw [getTh_ok hq]
  simp only [ok_bind]
  split_ifs <;> rfl

/-- Check 8 succeeds on the engine's feature dict when its threshold key is present. -/
theorem checkRedundancy_ok_engine (sm : String → ℚ)
    (pt : String → List (String × String)) (text : String) {t : ThresholdMap}
    {q : ℚ} (hq : dictGet t "UNIQUENESS_RATIO_MIN" = some q) :
    isOkB (checkRedundancy (FakeReviewXAI.extract_all_features sm pt text) t) = true := by
  unfold checkRedundancy
  rw [show getFeat (FakeReviewXAI.extract_all_features sm pt text) "uniqueness_ratio" =
      .ok (.num (calculate_text_redundancy text).uniqueness_ratio) from rfl]
  simp only [ok_bind]
  rw [show pyNum (.num (calculate_text_redundancy text).uniqueness_ratio) =
      .ok (calculate_text_redundancy text).uniqueness_ratio from rfl]
  simp only [ok_bind]
  rw [getTh_ok hq]
  simp only [ok_bind]
  split_ifs <;> rfl

/-- Scoring the engine's own feature dict never raises, for any threshold
configuration that carries all nine keys. -/
theorem generate_ok_engine (sm : String → ℚ)
    (pt : String → List (String × String)) (text : String) {t : ThresholdMap}
    (h : ∀ k ∈ thresholdKeys, (dictGet t k).isSome = true) :
    isOkB (generate_explanation (FakeReviewXAI.extract_all_features sm pt text) t)
      = true := by
  obtain ⟨q1, hq1⟩ := Option.isSome_iff_exists.mp (h "SENTIMENT_EXTREME" (by decide))
  obtain ⟨q2, hq2⟩ := Option.isSome_iff_exists.mp (h "WORD_COUNT_MIN" (by decide))
  obtain ⟨q3, hq3⟩ := Option.isSome_iff_exists.mp (h "WORD_COUNT_MAX" (by decide))
  obtain ⟨q4, hq4⟩ := Option.isSome_iff_exists.mp (h "ADJ_NOUN_RATIO" (by decide))
  obtain ⟨q5, hq5⟩ := Option.isSome_iff_exists.mp (h "FIRST_PERSON_RATIO" (by decide))
  obtain ⟨q6, hq6⟩ := Option.isSome_iff_exists.mp (h "SPAM_KEYWORD_MIN" (by decide))
  obtain ⟨q7, hq7⟩ := Option.isSome_iff_exists.mp (h "CAPS_RATIO_MAX" (by decide))
  obtain ⟨q8, hq8⟩ := Option.isSome_iff_exists.mp (h "EXCESSIVE_PUNCT_MIN" (by decide))
  obtain ⟨q9, hq9⟩ := Option.isSome_iff_exists.mp (h "UNIQUENESS_RATIO_MIN" (by decide))
  unfold generate_explanation runChecks
  refine isOkB_bind _ _ (isOkB_bind _ _ (checkSentiment_ok_engine sm pt text hq1)
    fun p1 => ?_) fun p => ?_
  · obtain ⟨r1, c1⟩ := p1
    refine isOkB_bind _ _ (checkLength_ok_engine sm pt text hq2 hq3) fun p2 => ?_
    obtain ⟨r2, c2⟩ := p2
    refine isOkB_bind _ _ (checkAdjNoun_ok_engine sm pt text hq4) fun p3 => ?_
    obtain ⟨r3, c3⟩ := p3
    refine isOkB_bind _ _ (checkFirstPerson_ok_engine sm pt text hq5) fun p4 => ?_
    obtain ⟨r4, c4⟩ := p4
    refine isOkB_bind _ _ (checkSpam_ok_engine sm pt text hq6) fun p5 => ?_
    obtain ⟨r5, c5⟩ := p5
    refine isOkB_bind _ _ (checkCaps_ok_engine sm pt text hq7) fun p6 => ?_
    obtain ⟨r6, c6⟩ := p6
    refine isOkB_bind _ _ (checkPunct_ok_engine sm pt text hq8) fun p7 => ?_
    obtain ⟨r7, c7⟩ := p7
    refine isOkB_bind _ _ (checkRedundancy_ok_engine sm pt text hq9) fun p8 => ?_
    obtain ⟨r8, c8⟩ := p8
    rfl
  · obtain ⟨rs, s⟩ := p
    dsimp only
    split_ifs <;> rfl



/-- Claim C8.  For every non-empty text, the feature dict built by the
`FakeReviewXAI.extract_all_features` method contains every feature key the
scorer reads, and scoring it with the default thresholds never fails on a
missing key; the module-level `extract_all_features` (tier 2) lacks the
scorer's `spam_keyword_count` and `excessive_punct_count` keys, carrying the
differently named `spam_keywords_count` instead. -/
theorem C8_feature_vocabulary_complete (sm : String → ℚ) (pt : String → List (String × String))
    (text : String) (h : text ≠ "") :
    (∀ k ∈ scorerFeatureKeys,
      (dictGet (FakeReviewXAI.extract_all_features sm pt text) k).isSome = true) ∧
    isOkB (generate_explanation (FakeReviewXAI.extract_all_features sm pt text)
      THRESHOLDS) = true ∧
    dictGet (module_extract_all_features sm pt text 2) "spam_keyword_count" = none ∧
    dictGet (module_extract_all_features sm pt text 2) "excessive_punct_count" = none ∧
    (dictGet (module_extract_all_features sm pt text 2) "spam_keywords_count").isSome
      = true := by
  refine ⟨?_, ?_, rfl, rfl, rfl⟩
  · intro k hk
    fin_cases hk <;> rfl
  · exact generate_ok_engine sm pt text (fun k hk => by fin_cases hk <;> decide)

/-- Witness for C8: the concrete five-word review scores successfully. -/
theorem C8_feature_vocabulary_complete_witness :
    isOkB (generate_explanation
    (FakeReviewXAI.extract_all_features sm0 pt0 text5) THRESHOLDS) = true :=
  (C8_feature_vocabulary_complete sm0 pt0 text5 (by decide)).2.1



/-- A check contributing under a feature label other than `Length` never contains the short-review reason. -/
theorem shortLengthReason_not_mem {rs : List Reason} {c : ℕ} {F : String}
    (hsh : (rs = [] ∧ c = 0) ∨ ∃ x, rs = [x] ∧ x.feature = F ∧ 0 < c)
    (hF : ¬ F = "Length") (v : PyVal) : shortLengthReason v ∉ rs := by
  rcases hsh with ⟨h1, _⟩ | ⟨x, h1, hfeat, _⟩ <;> subst h1
  · simp
  · simp only [List.mem_singleton]
    intro he
    apply hF
    rw [← hfeat, ← he]
    rfl

/-- At the default thresholds the 20-word review's explanation never carries
the short-review reason (20 is not below the default minimum of 15). -/
theorem short_not_mem_default (sm : String → ℚ)
    (pt : String → List (String × String)) {ex : Explanation}
    (hex : generate_explanation (FakeReviewXAI.extract_all_features sm pt text20)
      THRESHOLDS = .ok ex) :
    shortLengthReason (.int 20) ∉ ex.reasons := by
  cases hrc : runChecks (FakeReviewXAI.extract_all_features sm pt text20) THRESHOLDS with
  | error e =>
    unfold generate_explanation at hex
    rw [hrc] at hex
    simp at hex
  | ok p =>
    obtain ⟨rs, s⟩ := p
    obtain ⟨r1, c1, r2, c2, r3, c3, r4, c4, r5, c5, r6, c6, r7, c7, r8, c8,
      h1, h2, h3, h4, h5, h6, h7, h8, hrs, hsum⟩ := runChecks_inv hrc
    have h2' : checkLength (FakeReviewXAI.extract_all_features sm pt text20)
        THRESHOLDS = .ok ([], 0) := rfl
    obtain ⟨hr2, hc2⟩ := Prod.mk.injEq _ _ _ _ |>.mp (Except.ok.inj (h2.symm.trans h2'))
    have hnm : shortLengthReason (.int 20) ∉ rs := by
      subst hrs
      intro hm
      simp only [List.mem_append] at hm
      rcases hm with ((((((hm | hm) | hm) | hm) | hm) | hm) | hm) | hm
      · exact shortLengthReason_not_mem (checkSentiment_shape h1) (by decide) _ hm
      · rw [hr2] at hm; cases hm
      · exact shortLengthReason_not_mem (checkAdjNoun_shape h3) (by decide) _ hm
      · exact shortLengthReason_not_mem (checkFirstPerson_shape h4) (by decide) _ hm
      · exact shortLengthReason_not_mem (checkSpam_shape h5) (by decide) _ hm
      · exact shortLengthReason_not_mem (checkCaps_shape h6) (by decide) _ hm
      · exact shortLengthReason_not_mem (checkPunct_shape h7) (by decide) _ hm
      · exact shortLengthReason_not_mem (checkRedundancy_shape h8) (by decide) _ hm
    unfold generate_explanation at hex
    rw [hrc] at hex
    simp only [ok_bind] at hex
    split_ifs at hex <;> (have hee := Except.ok.inj hex; subst hee)
    · exact hnm
    · exact hnm
    · intro hm
      rcases List.mem_append.mp hm with hm | hm
      · exact hnm hm
      · rcases List.mem_singleton.mp hm with he
        have : (shortLengthReason (.int 20)).feature = overallReason.feature := by rw [he]
        simp [shortLengthReason, overallReason] at this

/-- After raising `WORD_COUNT_MIN` to 100 on the same configuration, the
20-word review's explanation always carries the short-review reason. -/
theorem short_mem_mutated (sm : String → ℚ)
    (pt : String → List (String × String)) {ex : Explanation}
    (hex : generate_explanation (FakeReviewXAI.extract_all_features sm pt text20)
      (dictSet THRESHOLDS "WORD_COUNT_MIN" 100) = .ok ex) :
    shortLengthReason (.int 20) ∈ ex.reasons := by
  cases hrc : runChecks (FakeReviewXAI.extract_all_features sm pt text20)
      (dictSet THRESHOLDS "WORD_COUNT_MIN" 100) with
  | error e =>
    unfold generate_explanation at hex
    rw [hrc] at hex
    simp at hex
  | ok p =>
    obtain ⟨rs, s⟩ := p
    obtain ⟨r1, c1, r2, c2, r3, c3, r4, c4, r5, c5, r6, c6, r7, c7, r8, c8,
      h1, h2, h3, h4, h5, h6, h7, h8, hrs, hsum⟩ := runChecks_inv hrc
    have h2' : checkLength (FakeReviewXAI.extract_all_features sm pt text20)
        (dictSet THRESHOLDS "WORD_COUNT_MIN" 100) =
        .ok ([shortLengthReason (.int 20)], 15) := rfl
    obtain ⟨hr2, hc2⟩ := Prod.mk.injEq _ _ _ _ |>.mp (Except.ok.inj (h2.symm.trans h2'))
    have hmem : shortLengthReason (.int 20) ∈ rs := by
      subst hrs
      rw [hr2]
      simp [List.mem_append]
    unfold generate_explanation at hex
    rw [hrc] at hex
    simp only [ok_bind] at hex
    split_ifs at hex <;> (have hee := Except.ok.inj hex; subst hee)
    · exact hmem
    · exact hmem
    · exact List.mem_append.mpr (Or.inl hmem)



/-- Claim C3 (amended).  Mutating one threshold on the existing engine
instance (no reconstruction) is a plain update of its `thresholds` dict, and
the next `analyze_review` call re-reads it: for a 20-word review the
short-length reason is absent at the default minimum of 15 and present after
setting `WORD_COUNT_MIN` to 100 — for every sentiment/tagger oracle. -/
theorem C3_threshold_mutation_live (sm : String → ℚ) (pt : String → List (String × String)) :
    FakeReviewXAI.new.setThreshold "WORD_COUNT_MIN" 100 =
      ⟨dictSet THRESHOLDS "WORD_COUNT_MIN" 100⟩ ∧
    ((FakeReviewXAI.new.analyze_review sm pt text20).map
      fun e => decide (shortLengthReason (.int 20) ∈ e.reasons)) = .ok false ∧
    (((FakeReviewXAI.new.setThreshold "WORD_COUNT_MIN" 100).analyze_review sm pt
        text20).map
      fun e => decide (shortLengthReason (.int 20) ∈ e.reasons)) = .ok true := by
  refine ⟨rfl, ?_, ?_⟩
  · cases hex : generate_explanation (FakeReviewXAI.extract_all_features sm pt text20)
        THRESHOLDS with
    | error e =>
      have hok := generate_ok_engine sm pt text20 (t := THRESHOLDS)
        (fun k hk => by fin_cases hk <;> decide)
      rw [hex] at hok
      simp [isOkB] at hok
    | ok ex =>
      have hnm := short_not_mem_default sm pt hex
      unfold FakeReviewXAI.analyze_review
      simp only [show FakeReviewXAI.new.thresholds = THRESHOLDS from rfl, hex,
        ok_bind, pure_eq_ok, Except.map]
      simp [hnm]
  · cases hex : generate_explanation (FakeReviewXAI.extract_all_features sm pt text20)
        (dictSet THRESHOLDS "WORD_COUNT_MIN" 100) with
    | error e =>
      have hok := generate_ok_engine sm pt text20
        (t := dictSet THRESHOLDS "WORD_COUNT_MIN" 100)
        (fun k hk => by fin_cases hk <;> decide)
      rw [hex] at hok
      simp [isOkB] at hok
    | ok ex =>
      have hmem := short_mem_mutated sm pt hex
      unfold FakeReviewXAI.analyze_review
      simp only [show (FakeReviewXAI.new.setThreshold "WORD_COUNT_MIN" 100).thresholds =
          dictSet THRESHOLDS "WORD_COUNT_MIN" 100 from rfl, hex,
        ok_bind, pure_eq_ok, Except.map]
      simp [hmem]

/-- Counterexample to C3 as stated: for a 5-word review the short-length
reason is already present at the default threshold of 15 (5 < 15), so it is
not a reason "that was previously absent". -/
theorem C3_five_word_review_counterexample :
    ((FakeReviewXAI.new.analyze_review sm0 pt0 text5).map
      fun e => decide (shortLengthReason (.int 5) ∈ e.reasons)) = .ok true ∧
    extract_word_count text5 = 5 ∧
    dictGet THRESHOLDS "WORD_COUNT_MIN" = some 15 := by
  refine ⟨by decide, by decide, by decide⟩

end XAI
